import Mathlib

/-!
Verification of the integration-request dispatch / phase-orchestration core of
the Slack-bot repository (`system_integrator.py`, `enhanced_orchestrator.py`,
`base_orchestrator.py`), as a shallow embedding in Lean 4.

Python `dict`-shaped dynamic data (parsed JSON payloads, handler parameters,
handler results, log entries) is modelled by the inductive `JValue`; Python
strings are Lean `String`s; the filesystem, the execution log, the durable
audit file and the enabled-integrations policy are explicit state.  Python
exceptions are modelled with `Except PyErr`; the `except (IOError, ValueError)`
clause of `execute_ai_request` catches exactly the `PyErr` constructors that
correspond to those classes (in Python 3 `IOError` is `OSError`, so
`FileNotFoundError` is caught by it).
-/

/-- Python whitespace characters for `str.strip()`. -/
def pyWs (c : Char) : Bool :=
  c = ' ' || c = '\t' || c = '\n' || c = '\x0d' || c = '\x0b' || c = '\x0c'

/-- Python `str.strip()` (no argument): remove leading and trailing whitespace. -/
def pyStrip (s : String) : String :=
  String.mk (((s.toList.dropWhile pyWs).reverse.dropWhile pyWs).reverse)

/-- List prefix test (structural, so that it reduces in the kernel). -/
def listPre : List Char → List Char → Bool
  | [], _ => true
  | _ :: _, [] => false
  | a :: as, b :: bs => a = b && listPre as bs

/-- Substring containment on char lists. -/
def listSub (needle hay : List Char) : Bool :=
  match hay with
  | [] => listPre needle []
  | _ :: rest => listPre needle hay || listSub needle rest

/-- Python `needle in haystack` on strings: substring containment. -/
def strContains (hay needle : String) : Bool :=
  listSub needle.toList hay.toList

/-- Accumulating helper for newline splitting. -/
def splitNlAux : List Char → List Char → List (List Char)
  | [], acc => [acc.reverse]
  | '\n' :: rest, acc => acc.reverse :: splitNlAux rest []
  | c :: rest, acc => splitNlAux rest (c :: acc)

/-- Python `s.split('\n')`: split on every newline, keeping empty pieces. -/
def pySplitLines (s : String) : List String :=
  (splitNlAux s.toList []).map String.mk

/-- Python `'\n'.join(lines)`. -/
def joinLines : List String → String
  | [] => ""
  | [l] => l
  | l :: ls => l ++ "\n" ++ joinLines ls

example : pyStrip "  \n a b \t\n" = "a b" := by decide
example : strContains "x ```json y" "```json" = true := by decide
example : strContains "no fence" "```" = false := by decide
example : pySplitLines "a\n\nb" = ["a", "", "b"] := by decide
example : joinLines ["a", "", "b"] = "a\n\nb" := by decide

/-! ## Dynamic values

`JValue` models the Python values that flow through the integration layer:
results of `json.loads`, handler parameter dicts, handler result dicts and
execution-log entries.  Python `dict`s are association lists in insertion
order (Python 3.7+ dicts preserve insertion order, and `json.loads` /
`json.dumps` keep it). -/

inductive JValue where
  | jnull
  | jbool (b : Bool)
  | jnum (n : Int)
  | jstr (s : String)
  | jarr (elts : List JValue)
  | jobj (fields : List (String × JValue))

/-- Python truthiness (`if x:`) of a JSON-shaped value. -/
def JValue.truthy : JValue → Bool
  | .jnull => false
  | .jbool b => b
  | .jnum n => n != 0
  | .jstr s => s != ""
  | .jarr xs => !xs.isEmpty
  | .jobj kvs => !kvs.isEmpty

/-- Python `v == "lit"`: true exactly when `v` is that string. -/
def JValue.isStrEq : JValue → String → Bool
  | .jstr s, t => s = t
  | _, _ => false

/-- Lookup in a dict (first binding wins, as in a Python dict no key repeats). -/
def jLookup (kvs : List (String × JValue)) (k : String) : Option JValue :=
  match kvs with
  | [] => none
  | (k', v) :: rest => if k' = k then some v else jLookup rest k

/-- Python `k in v` for a string `k`: dict key test, list membership,
substring test on strings; a `TypeError` on non-iterable values. -/
def pyContains (v : JValue) (k : String) : Except String Bool :=
  match v with
  | .jobj kvs => .ok (jLookup kvs k).isSome
  | .jarr xs => .ok (xs.any (fun x => match x with | .jstr s => s = k | _ => false))
  | .jstr s => .ok (strContains s k)
  | _ => .error ("argument of type is not iterable")

/-- Python `v[k]` for a string key: dict indexing (`KeyError` when absent),
`TypeError` on strings/lists/scalars. -/
def pyIndex (v : JValue) (k : String) : Except String JValue :=
  match v with
  | .jobj kvs =>
      match jLookup kvs k with
      | some x => .ok x
      | none => .error ("'" ++ k ++ "'")
  | .jstr _ => .error "string indices must be integers"
  | .jarr _ => .error "list indices must be integers or slices, not str"
  | _ => .error "object is not subscriptable"

/-- Python `v.get(k)` on a dict, `None` when absent (only called on dicts). -/
def jGet (v : JValue) (k : String) : JValue :=
  match v with
  | .jobj kvs => (jLookup kvs k).getD .jnull
  | _ => .jnull

/-- Python `v.get(k, default)` on a dict. -/
def jGetD (v : JValue) (k : String) (d : JValue) : JValue :=
  match v with
  | .jobj kvs => (jLookup kvs k).getD d
  | _ => d

/-! ## Serialization (`json.dumps(..., ensure_ascii=False)`)

Default separators `", "` and `": "`.  `json.dumps` escapes `"` and `\`,
renders the control characters `\n`, `\t`, `\r` with their short escapes
(we do not model the rarer `\b`, `\f`, `\uXXXX` escapes of other control
characters; entries written by this program do not contain them). -/

/-- Decimal digits of a natural number, most significant first (fueled so that
it reduces in the kernel; `fuel > n` suffices). -/
def natDigits : Nat → Nat → List Char
  | 0, _ => []
  | fuel + 1, n =>
      if n < 10 then [Char.ofNat (48 + n)]
      else natDigits fuel (n / 10) ++ [Char.ofNat (48 + n % 10)]

/-- Decimal rendering of an integer, as Python `str(n)`. -/
def intChars (n : Int) : List Char :=
  if n < 0 then '-' :: natDigits (n.natAbs + 1) n.natAbs
  else natDigits (n.natAbs + 1) n.natAbs

/-- JSON escape of one character. -/
def escChar (c : Char) : List Char :=
  if c = '"' then ['\\', '"']
  else if c = '\\' then ['\\', '\\']
  else if c = '\n' then ['\\', 'n']
  else if c = '\t' then ['\\', 't']
  else if c = '\x0d' then ['\\', 'r']
  else [c]

/-- JSON escape of a string body. -/
def escList : List Char → List Char
  | [] => []
  | c :: rest => escChar c ++ escList rest

/-- Rendered JSON string literal. -/
def strChars (s : String) : List Char :=
  '"' :: escList s.toList ++ ['"']

mutual

/-- Characters of the `json.dumps` rendering of a value. -/
def renderChars : JValue → List Char
  | .jnull => ['n', 'u', 'l', 'l']
  | .jbool true => ['t', 'r', 'u', 'e']
  | .jbool false => ['f', 'a', 'l', 's', 'e']
  | .jnum n => intChars n
  | .jstr s => strChars s
  | .jarr [] => ['[', ']']
  | .jarr (x :: xs) => '[' :: (renderChars x ++ renderItems xs) ++ [']']
  | .jobj [] => ['\x7b', '\x7d']
  | .jobj ((k, v) :: kvs) =>
      '\x7b' :: (strChars k ++ ':' :: ' ' :: renderChars v ++ renderFields kvs) ++ ['\x7d']

/-- Remaining array items, each preceded by `", "`. -/
def renderItems : List JValue → List Char
  | [] => []
  | x :: xs => ',' :: ' ' :: renderChars x ++ renderItems xs

/-- Remaining object fields, each preceded by `", "`. -/
def renderFields : List (String × JValue) → List Char
  | [] => []
  | (k, v) :: kvs => ',' :: ' ' :: strChars k ++ ':' :: ' ' :: renderChars v ++ renderFields kvs

end

/-- Python `json.dumps(v, ensure_ascii=False)`. -/
def jdumps (v : JValue) : String :=
  String.mk (renderChars v)

example : jdumps (.jobj [("a", .jnum 1), ("b", .jstr "x\"y")])
    = "\x7b\"a\": 1, \"b\": \"x\\\"y\"\x7d" := by decide
example : jdumps (.jarr [.jnull, .jbool true, .jnum (-12)]) = "[null, true, -12]" := by decide

/-! ## Parsing (`json.loads`)

A小 JSON reader over `List Char`.  Strings, numbers and keywords are
structural; only the nesting of arrays/objects is fueled (any fuel larger
than the nesting cost suffices, and `jloads` supplies one larger than the
input length). -/

/-- JSON whitespace. -/
def jWs (c : Char) : Bool :=
  c = ' ' || c = '\t' || c = '\n' || c = '\x0d'

/-- Drop leading JSON whitespace. -/
def jSkipWs (cs : List Char) : List Char :=
  cs.dropWhile jWs

/-- Value of a hex digit. -/
def hexVal (c : Char) : Option Nat :=
  if '0' ≤ c ∧ c ≤ '9' then some (c.toNat - 48)
  else if 'a' ≤ c ∧ c ≤ 'f' then some (c.toNat - 87)
  else if 'A' ≤ c ∧ c ≤ 'F' then some (c.toNat - 55)
  else none

/-- Parse the body of a JSON string literal (after the opening quote),
returning the unescaped characters and the remainder after the closing
quote. -/
def pStr : List Char → Option (List Char × List Char)
  | [] => none
  | c :: rest =>
    if c = '"' then some ([], rest)
    else if c = '\\' then
      match rest with
      | [] => none
      | e :: rest' =>
        if e = '"' then (pStr rest').map (fun p => ('"' :: p.1, p.2))
        else if e = '\\' then (pStr rest').map (fun p => ('\\' :: p.1, p.2))
        else if e = '/' then (pStr rest').map (fun p => ('/' :: p.1, p.2))
        else if e = 'n' then (pStr rest').map (fun p => ('\n' :: p.1, p.2))
        else if e = 't' then (pStr rest').map (fun p => ('\t' :: p.1, p.2))
        else if e = 'r' then (pStr rest').map (fun p => ('\x0d' :: p.1, p.2))
        else if e = 'b' then (pStr rest').map (fun p => ('\x08' :: p.1, p.2))
        else if e = 'f' then (pStr rest').map (fun p => ('\x0c' :: p.1, p.2))
        else if e = 'u' then
          match rest' with
          | h1 :: h2 :: h3 :: h4 :: rest2 =>
            match hexVal h1, hexVal h2, hexVal h3, hexVal h4 with
            | some a, some b, some c3, some d =>
                (pStr rest2).map
                  (fun p => (Char.ofNat (4096 * a + 256 * b + 16 * c3 + d) :: p.1, p.2))
            | _, _, _, _ => none
          | _ => none
        else none
    else (pStr rest).map (fun p => (c :: p.1, p.2))

/-- Numeric value of a list of decimal digits. -/
def digitsVal (ds : List Char) : Nat :=
  ds.foldl (fun a c => 10 * a + (c.toNat - 48)) 0

/-- Parse an integer JSON number (this model does not represent floats;
the entries this program writes contain only integers). -/
def pNum (cs : List Char) : Option (Int × List Char) :=
  match cs with
  | [] => none
  | c :: rest =>
    if c = '-' then
      let ds := rest.takeWhile Char.isDigit
      if ds.isEmpty then none
      else some (-(digitsVal ds : Int), rest.dropWhile Char.isDigit)
    else
      let ds := (c :: rest).takeWhile Char.isDigit
      if ds.isEmpty then none
      else some ((digitsVal ds : Int), (c :: rest).dropWhile Char.isDigit)

/-- Match an exact literal tail (for `null` / `true` / `false`). -/
def pLit : List Char → List Char → Option (List Char)
  | [], cs => some cs
  | l :: ls, c :: cs => if c = l then pLit ls cs else none
  | _ :: _, [] => none

mutual

/-- Parse one JSON value (no leading whitespace). -/
def pValue : Nat → List Char → Option (JValue × List Char)
  | 0, _ => none
  | fuel + 1, cs =>
    match cs with
    | [] => none
    | c :: rest =>
      if c = '"' then (pStr rest).map (fun p => (.jstr (String.mk p.1), p.2))
      else if c = '[' then
        match jSkipWs rest with
        | [] => none
        | d :: r2 =>
          if d = ']' then some (.jarr [], r2)
          else (pItems fuel (d :: r2)).map (fun p => (.jarr p.1, p.2))
      else if c = '\x7b' then
        match jSkipWs rest with
        | [] => none
        | d :: r2 =>
          if d = '\x7d' then some (.jobj [], r2)
          else (pFields fuel (d :: r2)).map (fun p => (.jobj p.1, p.2))
      else if c = 'n' then (pLit ['u', 'l', 'l'] rest).map (fun r => (.jnull, r))
      else if c = 't' then (pLit ['r', 'u', 'e'] rest).map (fun r => (.jbool true, r))
      else if c = 'f' then (pLit ['a', 'l', 's', 'e'] rest).map (fun r => (.jbool false, r))
      else (pNum (c :: rest)).map (fun p => (.jnum p.1, p.2))

/-- Parse the items of a non-empty array, up to and including `]`. -/
def pItems : Nat → List Char → Option (List JValue × List Char)
  | 0, _ => none
  | fuel + 1, cs => do
      let (v, r) ← pValue fuel cs
      match jSkipWs r with
      | [] => none
      | d :: r2 =>
        if d = ',' then do
          let (vs, r3) ← pItems fuel (jSkipWs r2)
          pure (v :: vs, r3)
        else if d = ']' then pure ([v], r2)
        else none

/-- Parse the fields of a non-empty object, up to and including the brace. -/
def pFields : Nat → List Char → Option (List (String × JValue) × List Char)
  | 0, _ => none
  | fuel + 1, cs =>
    match cs with
    | c :: r0 =>
      if c = '"' then do
        let (kb, r1) ← pStr r0
        match jSkipWs r1 with
        | [] => none
        | d :: r2 =>
          if d = ':' then do
            let (v, r3) ← pValue fuel (jSkipWs r2)
            match jSkipWs r3 with
            | [] => none
            | d2 :: r4 =>
              if d2 = ',' then do
                let (kvs, r5) ← pFields fuel (jSkipWs r4)
                pure ((String.mk kb, v) :: kvs, r5)
              else if d2 = '\x7d' then pure ([(String.mk kb, v)], r4)
              else none
          else none
      else none
    | [] => none

end

/-- Python `json.loads`: parse, requiring only whitespace after the value. -/
def jloads (s : String) : Option JValue :=
  let cs := jSkipWs s.toList
  match pValue (s.toList.length + 1) cs with
  | some (v, r) => if (jSkipWs r).isEmpty then some v else none
  | none => none

example : jloads " \x7b\"a\": [1, -2, true], \"b\": null\x7d " =
    some (.jobj [("a", .jarr [.jnum 1, .jnum (-2), .jbool true]), ("b", .jnull)]) := rfl
example : jloads "not json" = none := rfl
example : jloads "\"a\\n\\\"b\\u0041\"" = some (.jstr "a\n\"bA") := rfl
example : jloads (jdumps (.jobj [("k", .jstr "v\\w"), ("m", .jarr [])])) =
    some (.jobj [("k", .jstr "v\\w"), ("m", .jarr [])]) := rfl

/-- Fuel sufficient for `pValue` on the rendering of `v`. -/
def costV (v : JValue) : Nat :=
  (renderChars v).length

/-- Fuel sufficient for `pItems` on a rendered non-empty item list. -/
def costItems (x : JValue) (xs : List JValue) : Nat :=
  (renderChars x).length + (renderItems xs).length + 1

/-- Fuel sufficient for `pFields` on a rendered non-empty field list. -/
def costFields (v : JValue) (kvs : List (String × JValue)) : Nat :=
  (renderChars v).length + (renderFields kvs).length + 1

/-! ### Parser/printer roundtrip

`json.loads(json.dumps(x)) == x`; used by the audit-log round-trip claim. -/

lemma ne_of_isDigit {c d : Char} (h : c.isDigit = true) (hd : d.isDigit = false) : c ≠ d := by
  intro e
  subst e
  rw [h] at hd
  cases hd

lemma digitChar_isDigit {n : Nat} (h : n < 10) : (Char.ofNat (48 + n)).isDigit = true := by
  interval_cases n <;> decide

lemma digitChar_toNat {n : Nat} (h : n < 10) : (Char.ofNat (48 + n)).toNat = 48 + n := by
  interval_cases n <;> decide

lemma digitsVal_append (ds : List Char) (c : Char) :
    digitsVal (ds ++ [c]) = 10 * digitsVal ds + (c.toNat - 48) := by
  simp [digitsVal, List.foldl_append]

lemma natDigits_spec : ∀ f n : Nat, n < f →
    (∀ c ∈ natDigits f n, c.isDigit = true) ∧ natDigits f n ≠ [] ∧
      digitsVal (natDigits f n) = n := by
  intro f
  induction f with
  | zero => intro n h; omega
  | succ f ih =>
    intro n h
    by_cases h10 : n < 10
    · refine ⟨?_, ?_, ?_⟩
      · intro c hc
        simp [natDigits, h10] at hc
        subst hc
        exact digitChar_isDigit h10
      · simp [natDigits, h10]
      · simp [natDigits, h10, digitsVal, digitChar_toNat h10]
    · have hpos : 0 < n := by omega
      have hdiv : n / 10 < f := by
        have h1 := Nat.div_lt_self hpos (by norm_num : 1 < 10)
        omega
      obtain ⟨hall, hne, hval⟩ := ih (n / 10) hdiv
      have hmod : n % 10 < 10 := Nat.mod_lt _ (by norm_num)
      refine ⟨?_, ?_, ?_⟩
      · intro c hc
        simp [natDigits, h10] at hc
        rcases hc with hc | hc
        · exact hall c hc
        · subst hc; exact digitChar_isDigit hmod
      · simp [natDigits, h10]
      · simp only [natDigits, h10, if_false, reduceIte]
        rw [digitsVal_append, hval, digitChar_toNat hmod]
        omega

/-- The remainder does not begin with a decimal digit (needed because number
parsing is maximal-munch). -/
def noDigitHead (cs : List Char) : Prop :=
  ∀ c, cs.head? = some c → c.isDigit = false

lemma noDigitHead_nil : noDigitHead [] := by
  intro c h
  cases h

lemma noDigitHead_cons {c : Char} {cs : List Char} (h : c.isDigit = false) :
    noDigitHead (c :: cs) := by
  intro d hd
  simp at hd
  subst hd
  exact h

lemma takeWhile_digits : ∀ ds rest : List Char, (∀ c ∈ ds, c.isDigit = true) →
    noDigitHead rest →
    (ds ++ rest).takeWhile Char.isDigit = ds ∧ (ds ++ rest).dropWhile Char.isDigit = rest := by
  intro ds
  induction ds with
  | nil =>
    intro rest _ hnd
    cases rest with
    | nil => simp
    | cons c cs =>
      have := hnd c (by simp)
      simp [List.takeWhile, List.dropWhile, this]
  | cons c ds ih =>
    intro rest hall hnd
    have hc : c.isDigit = true := hall c (by simp)
    have := ih rest (fun x hx => hall x (by simp [hx])) hnd
    simp [List.takeWhile, List.dropWhile, hc, this.1, this.2]

lemma pNum_render (n : Int) (rest : List Char) (hnd : noDigitHead rest) :
    pNum (intChars n ++ rest) = some (n, rest) := by
  by_cases hneg : n < 0
  · obtain ⟨hall, hne, hval⟩ := natDigits_spec (n.natAbs + 1) n.natAbs (by omega)
    have h1 : intChars n = '-' :: natDigits (n.natAbs + 1) n.natAbs := by
      simp [intChars, hneg]
    rw [h1]
    have hsp := takeWhile_digits (natDigits (n.natAbs + 1) n.natAbs) rest hall hnd
    simp only [pNum, List.cons_append, reduceIte, hsp.1, hsp.2]
    have : ¬ (natDigits (n.natAbs + 1) n.natAbs).isEmpty = true := by
      cases hx : natDigits (n.natAbs + 1) n.natAbs with
      | nil => exact absurd hx hne
      | cons a b => simp
    simp only [this, if_false, reduceIte, hval]
    have : -(n.natAbs : Int) = n := by omega
    rw [this]
    simp
  · obtain ⟨hall, hne, hval⟩ := natDigits_spec (n.natAbs + 1) n.natAbs (by omega)
    have h1 : intChars n = natDigits (n.natAbs + 1) n.natAbs := by
      simp [intChars, hneg]
    obtain ⟨c, cs, hcc⟩ : ∃ c cs, natDigits (n.natAbs + 1) n.natAbs = c :: cs := by
      cases hx : natDigits (n.natAbs + 1) n.natAbs with
      | nil => exact absurd hx hne
      | cons a b => exact ⟨a, b, rfl⟩
    have hcd : c.isDigit = true := hall c (by rw [hcc]; simp)
    have hcne : c ≠ '-' := ne_of_isDigit hcd (by decide)
    have hsp := takeWhile_digits (natDigits (n.natAbs + 1) n.natAbs) rest hall hnd
    rw [h1, hcc]
    rw [hcc] at hsp
    simp only [pNum, List.cons_append, hcne, if_false, reduceIte]
    simp only [List.cons_append] at hsp
    simp only [hsp.1, hsp.2]
    have : ¬ (c :: cs).isEmpty = true := by simp
    simp only [this, if_false, reduceIte]
    rw [hcc] at hval
    rw [hval]
    have : (n.natAbs : Int) = n := by omega
    rw [this]
    simp

lemma jWs_eq_false_of_digit {c : Char} (h : c.isDigit = true) : jWs c = false := by
  cases hw : jWs c
  · rfl
  · exfalso
    simp [jWs] at hw
    rcases hw with ((rfl | rfl) | rfl) | rfl <;> exact absurd h (by decide)

lemma intChars_head (n : Int) :
    ∃ c t, intChars n = c :: t ∧ (c = '-' ∨ c.isDigit = true) := by
  by_cases hneg : n < 0
  · exact ⟨'-', natDigits (n.natAbs + 1) n.natAbs, by simp [intChars, hneg], Or.inl rfl⟩
  · obtain ⟨hall, hne, -⟩ := natDigits_spec (n.natAbs + 1) n.natAbs (by omega)
    obtain ⟨c, t, hcc⟩ : ∃ c t, natDigits (n.natAbs + 1) n.natAbs = c :: t := by
      cases hx : natDigits (n.natAbs + 1) n.natAbs with
      | nil => exact absurd hx hne
      | cons a b => exact ⟨a, b, rfl⟩
    refine ⟨c, t, by simp [intChars, hneg, hcc], Or.inr (hall c (by rw [hcc]; simp))⟩

lemma renderChars_head (v : JValue) :
    ∃ c cs, renderChars v = c :: cs ∧
      (c = 'n' ∨ c = 't' ∨ c = 'f' ∨ c = '"' ∨ c = '[' ∨ c = '\x7b' ∨ c = '-' ∨
        c.isDigit = true) := by
  cases v with
  | jnull => exact ⟨'n', _, rfl, by simp⟩
  | jbool b =>
    cases b with
    | false => exact ⟨'f', _, rfl, by simp⟩
    | true => exact ⟨'t', _, rfl, by simp⟩
  | jnum n =>
    obtain ⟨c, t, hcc, hd⟩ := intChars_head n
    refine ⟨c, t, by simp [renderChars, hcc], ?_⟩
    rcases hd with rfl | hd
    · simp
    · exact Or.inr (Or.inr (Or.inr (Or.inr (Or.inr (Or.inr (Or.inr hd))))))
  | jstr s => exact ⟨'"', _, rfl, by simp⟩
  | jarr xs =>
    cases xs with
    | nil => exact ⟨'[', _, rfl, by simp⟩
    | cons x xs => exact ⟨'[', _, rfl, by simp⟩
  | jobj kvs =>
    cases kvs with
    | nil => exact ⟨'\x7b', _, rfl, by simp⟩
    | cons kv kvs =>
      obtain ⟨k, v⟩ := kv
      exact ⟨'\x7b', _, rfl, by simp⟩

lemma renderChars_head_props (v : JValue) :
    ∃ c cs, renderChars v = c :: cs ∧ jWs c = false ∧ c ≠ ']' ∧ c ≠ '\x7d' := by
  obtain ⟨c, cs, h, hd⟩ := renderChars_head v
  refine ⟨c, cs, h, ?_, ?_, ?_⟩ <;>
    rcases hd with rfl | rfl | rfl | rfl | rfl | rfl | rfl | hd <;>
      first
        | decide
        | exact jWs_eq_false_of_digit hd
        | exact ne_of_isDigit hd (by decide)

lemma jSkipWs_cons_not_ws {c : Char} (h : jWs c = false) (cs : List Char) :
    jSkipWs (c :: cs) = c :: cs := by
  simp [jSkipWs, List.dropWhile_cons, h]

lemma jSkipWs_space (cs : List Char) : jSkipWs (' ' :: cs) = jSkipWs cs := by
  simp [jSkipWs, List.dropWhile_cons, jWs]

lemma jSkipWs_render (v : JValue) (rest : List Char) :
    jSkipWs (renderChars v ++ rest) = renderChars v ++ rest := by
  obtain ⟨c, cs, h, hw, -, -⟩ := renderChars_head_props v
  rw [h, List.cons_append, jSkipWs_cons_not_ws hw]

lemma jSkipWs_strChars (k : String) (rest : List Char) :
    jSkipWs (strChars k ++ rest) = strChars k ++ rest := by
  have h : strChars k ++ rest = '"' :: (escList k.toList ++ ['"'] ++ rest) := by
    simp [strChars]
  rw [h, jSkipWs_cons_not_ws (by decide)]

lemma pStr_escList : ∀ cs rest : List Char, pStr (escList cs ++ '"' :: rest) = some (cs, rest) := by
  intro cs
  induction cs with
  | nil =>
    intro rest
    rw [escList, List.nil_append, pStr.eq_def]
    simp
  | cons c cs ih =>
    intro rest
    by_cases h1 : c = '"'
    · subst h1
      rw [escList, show escChar '"' = ['\\', '"'] by decide]
      rw [List.cons_append, List.cons_append, pStr.eq_def]
      simp [ih]
    by_cases h2 : c = '\\'
    · subst h2
      rw [escList, show escChar '\\' = ['\\', '\\'] by decide]
      rw [List.cons_append, List.cons_append, pStr.eq_def]
      simp [ih]
    by_cases h3 : c = '\n'
    · subst h3
      rw [escList, show escChar '\n' = ['\\', 'n'] by decide]
      rw [List.cons_append, List.cons_append, pStr.eq_def]
      simp [ih]
    by_cases h4 : c = '\t'
    · subst h4
      rw [escList, show escChar '\t' = ['\\', 't'] by decide]
      rw [List.cons_append, List.cons_append, pStr.eq_def]
      simp [ih]
    by_cases h5 : c = '\x0d'
    · subst h5
      rw [escList, show escChar '\x0d' = ['\\', 'r'] by decide]
      rw [List.cons_append, List.cons_append, pStr.eq_def]
      simp [ih]
    · have hesc : escChar c = [c] := by simp [escChar, h1, h2, h3, h4, h5]
      rw [escList, hesc, List.cons_append, pStr.eq_def]
      simp [h1, h2, ih]

lemma strMk_toList (s : String) : String.mk s.toList = s := rfl

lemma renderChars_length_pos (v : JValue) : 1 ≤ (renderChars v).length := by
  obtain ⟨c, cs, h, -⟩ := renderChars_head v
  rw [h]
  simp

lemma noDigitHead_items (xs : List JValue) (rest : List Char) :
    noDigitHead (renderItems xs ++ ']' :: rest) := by
  cases xs with
  | nil =>
    rw [renderItems, List.nil_append]
    exact noDigitHead_cons (by decide)
  | cons y ys =>
    rw [renderItems, List.cons_append]
    exact noDigitHead_cons (by decide)

lemma noDigitHead_fields (kvs : List (String × JValue)) (rest : List Char) :
    noDigitHead (renderFields kvs ++ '\x7d' :: rest) := by
  cases kvs with
  | nil =>
    rw [renderFields, List.nil_append]
    exact noDigitHead_cons (by decide)
  | cons kv kvs =>
    obtain ⟨k, v⟩ := kv
    rw [renderFields, List.cons_append]
    exact noDigitHead_cons (by decide)


lemma num_head_ne {c : Char} (hd : c = '-' ∨ c.isDigit = true) :
    c ≠ '"' ∧ c ≠ '[' ∧ c ≠ '\x7b' ∧ c ≠ 'n' ∧ c ≠ 't' ∧ c ≠ 'f' := by
  rcases hd with rfl | hd
  · exact ⟨by decide, by decide, by decide, by decide, by decide, by decide⟩
  · exact ⟨ne_of_isDigit hd (by decide), ne_of_isDigit hd (by decide),
      ne_of_isDigit hd (by decide), ne_of_isDigit hd (by decide),
      ne_of_isDigit hd (by decide), ne_of_isDigit hd (by decide)⟩

theorem parse_render : ∀ fuel : Nat,
    (∀ v rest, costV v ≤ fuel → noDigitHead rest →
        pValue fuel (renderChars v ++ rest) = some (v, rest)) ∧
    (∀ x xs rest, costItems x xs ≤ fuel →
        pItems fuel (renderChars x ++ (renderItems xs ++ ']' :: rest)) = some (x :: xs, rest)) ∧
    (∀ k v kvs rest, costFields v kvs ≤ fuel →
        pFields fuel
            (strChars k ++ ':' :: ' ' :: (renderChars v ++ (renderFields kvs ++ '\x7d' :: rest)))
          = some ((k, v) :: kvs, rest)) := by
  intro fuel
  induction fuel with
  | zero =>
    refine ⟨?_, ?_, ?_⟩
    · intro v rest hc _
      have := renderChars_length_pos v
      unfold costV at hc
      omega
    · intro x xs rest hc
      simp [costItems] at hc
    · intro k v kvs rest hc
      simp [costFields] at hc
  | succ f ih =>
    obtain ⟨ihP, ihQ, ihR⟩ := ih
    refine ⟨?_, ?_, ?_⟩
    · intro v rest hc hnd
      cases v with
      | jnull =>
        rw [show renderChars .jnull ++ rest = 'n' :: 'u' :: 'l' :: 'l' :: rest from rfl]
        rw [pValue.eq_def]
        simp [pLit]
      | jbool b =>
        cases b with
        | false =>
          rw [show renderChars (.jbool false) ++ rest = 'f' :: 'a' :: 'l' :: 's' :: 'e' :: rest
            from rfl]
          rw [pValue.eq_def]
          simp [pLit]
        | true =>
          rw [show renderChars (.jbool true) ++ rest = 't' :: 'r' :: 'u' :: 'e' :: rest from rfl]
          rw [pValue.eq_def]
          simp [pLit]
      | jnum n =>
        obtain ⟨c, t, hcc, hd⟩ := intChars_head n
        obtain ⟨h1, h2, h3, h4, h5, h6⟩ := num_head_ne hd
        have hr : renderChars (.jnum n) ++ rest = c :: (t ++ rest) := by
          simp [renderChars, hcc]
        have hback : c :: (t ++ rest) = intChars n ++ rest := by
          rw [hcc, List.cons_append]
        rw [hr, pValue.eq_def]
        simp only [h1, h2, h3, h4, h5, h6, if_false, reduceIte]
        rw [hback, pNum_render n rest hnd]
        rfl
      | jstr s =>
        have hr : renderChars (.jstr s) ++ rest = '"' :: (escList s.toList ++ '"' :: rest) := by
          simp [renderChars, strChars]
        rw [hr, pValue.eq_def]
        simp [pStr_escList, strMk_toList]
      | jarr xs =>
        cases xs with
        | nil =>
          rw [show renderChars (.jarr []) ++ rest = '[' :: ']' :: rest from rfl]
          rw [pValue.eq_def]
          have hskip := jSkipWs_cons_not_ws (show jWs ']' = false from by decide) rest
          simp [hskip]
        | cons x xs =>
          have hr : renderChars (.jarr (x :: xs)) ++ rest
              = '[' :: (renderChars x ++ (renderItems xs ++ ']' :: rest)) := by
            simp [renderChars]
          rw [hr, pValue.eq_def]
          obtain ⟨c, cs, hcc, hw, hne1, hne2⟩ := renderChars_head_props x
          have hskip : jSkipWs (renderChars x ++ (renderItems xs ++ ']' :: rest))
              = c :: (cs ++ (renderItems xs ++ ']' :: rest)) := by
            rw [jSkipWs_render, hcc, List.cons_append]
          have hcost : costItems x xs ≤ f := by
            simp [costV, renderChars, costItems] at hc ⊢
            omega
          simp only [hskip, hne1, if_false, reduceIte]
          have hback : c :: (cs ++ (renderItems xs ++ ']' :: rest))
              = renderChars x ++ (renderItems xs ++ ']' :: rest) := by
            rw [hcc, List.cons_append]
          rw [hback, ihQ x xs rest hcost]
          rfl
      | jobj kvs =>
        cases kvs with
        | nil =>
          rw [show renderChars (.jobj []) ++ rest = '\x7b' :: '\x7d' :: rest from rfl]
          rw [pValue.eq_def]
          have hskip := jSkipWs_cons_not_ws (show jWs '\x7d' = false from by decide) rest
          simp [hskip]
        | cons kv kvs =>
          obtain ⟨k, v⟩ := kv
          have hr : renderChars (.jobj ((k, v) :: kvs)) ++ rest
              = '\x7b' :: (strChars k ++ ':' :: ' ' ::
                  (renderChars v ++ (renderFields kvs ++ '\x7d' :: rest))) := by
            simp [renderChars]
          rw [hr, pValue.eq_def]
          have hskip : jSkipWs (strChars k ++ ':' :: ' ' ::
                  (renderChars v ++ (renderFields kvs ++ '\x7d' :: rest)))
              = '"' :: (escList k.toList ++ '"' :: ':' :: ' ' ::
                  (renderChars v ++ (renderFields kvs ++ '\x7d' :: rest))) := by
            rw [jSkipWs_strChars]
            simp [strChars]
          have hcost : costFields v kvs ≤ f := by
            simp [costV, renderChars, costFields, strChars] at hc ⊢
            omega
          simp only [hskip, if_false, reduceIte]
          have hback : '"' :: (escList k.toList ++ '"' :: ':' :: ' ' ::
                  (renderChars v ++ (renderFields kvs ++ '\x7d' :: rest)))
              = strChars k ++ ':' :: ' ' ::
                  (renderChars v ++ (renderFields kvs ++ '\x7d' :: rest)) := by
            simp [strChars]
          rw [hback, ihR k v kvs rest hcost]
          rfl
    · intro x xs rest hc
      rw [pItems.eq_def]
      have hcx : costV x ≤ f := by
        simp [costItems, costV] at hc ⊢
        omega
      have hp := ihP x (renderItems xs ++ ']' :: rest) hcx (noDigitHead_items xs rest)
      cases xs with
      | nil =>
        have hskip := jSkipWs_cons_not_ws (show jWs ']' = false from by decide) rest
        simp only [renderItems, List.nil_append] at hp
        simp [renderItems, hp, hskip]
      | cons y ys =>
        have hys : costItems y ys ≤ f := by
          simp [costItems, renderItems] at hc ⊢
          have := renderChars_length_pos x
          omega
        have hskip1 : jSkipWs (',' :: ' ' :: (renderChars y ++ (renderItems ys ++ ']' :: rest)))
            = ',' :: ' ' :: (renderChars y ++ (renderItems ys ++ ']' :: rest)) :=
          jSkipWs_cons_not_ws (by decide) _
        have hskip2 : jSkipWs (' ' :: (renderChars y ++ (renderItems ys ++ ']' :: rest)))
            = renderChars y ++ (renderItems ys ++ ']' :: rest) := by
          rw [jSkipWs_space, jSkipWs_render]
        simp only [renderItems, List.cons_append, List.append_assoc] at hp
        simp [hp, renderItems, hskip1, hskip2, ihQ y ys rest hys]
    · intro k v kvs rest hc
      rw [pFields.eq_def]
      have hshape : strChars k ++ ':' :: ' ' ::
              (renderChars v ++ (renderFields kvs ++ '\x7d' :: rest))
          = '"' :: (escList k.toList ++ '"' :: ':' :: ' ' ::
              (renderChars v ++ (renderFields kvs ++ '\x7d' :: rest))) := by
        simp [strChars]
      rw [hshape]
      have hv : costV v ≤ f := by
        simp [costFields, costV] at hc ⊢
        omega
      have hpv := ihP v (renderFields kvs ++ '\x7d' :: rest) hv (noDigitHead_fields kvs rest)
      have hskipc : jSkipWs (':' :: ' ' ::
              (renderChars v ++ (renderFields kvs ++ '\x7d' :: rest)))
          = ':' :: ' ' :: (renderChars v ++ (renderFields kvs ++ '\x7d' :: rest)) :=
        jSkipWs_cons_not_ws (by decide) _
      have hskipsp : jSkipWs (' ' :: (renderChars v ++ (renderFields kvs ++ '\x7d' :: rest)))
          = renderChars v ++ (renderFields kvs ++ '\x7d' :: rest) := by
        rw [jSkipWs_space, jSkipWs_render]
      cases kvs with
      | nil =>
        have hskipbr := jSkipWs_cons_not_ws (show jWs '\x7d' = false from by decide) rest
        simp only [renderFields, List.nil_append] at hpv hskipc hskipsp
        simp [renderFields, pStr_escList, hskipc, hskipsp, hpv, strMk_toList, hskipbr]
      | cons kv2 kvs2 =>
        obtain ⟨k2, v2⟩ := kv2
        have hf2 : costFields v2 kvs2 ≤ f := by
          simp [costFields, renderFields, strChars] at hc ⊢
          have := renderChars_length_pos v
          omega
        have hskipcm : jSkipWs (',' :: ' ' :: (strChars k2 ++ ':' :: ' ' ::
                (renderChars v2 ++ (renderFields kvs2 ++ '\x7d' :: rest))))
            = ',' :: ' ' :: (strChars k2 ++ ':' :: ' ' ::
                (renderChars v2 ++ (renderFields kvs2 ++ '\x7d' :: rest))) :=
          jSkipWs_cons_not_ws (by decide) _
        have hskipsp2 : jSkipWs (' ' :: (strChars k2 ++ ':' :: ' ' ::
                (renderChars v2 ++ (renderFields kvs2 ++ '\x7d' :: rest))))
            = strChars k2 ++ ':' :: ' ' ::
                (renderChars v2 ++ (renderFields kvs2 ++ '\x7d' :: rest)) := by
          rw [jSkipWs_space, jSkipWs_strChars]
        simp only [renderFields, List.cons_append, List.append_assoc] at hpv hskipc hskipsp
        simp [renderFields, pStr_escList, hskipc, hskipsp, hpv, strMk_toList,
          hskipcm, hskipsp2, ihR k2 v2 kvs2 rest hf2]

lemma toList_strMk (cs : List Char) : (String.mk cs).toList = cs := rfl

/-- `json.loads(json.dumps(v)) == v`. -/
theorem jloads_jdumps (v : JValue) : jloads (jdumps v) = some v := by
  have hskip : jSkipWs (renderChars v) = renderChars v := by
    have h := jSkipWs_render v []
    simpa using h
  have hp : pValue ((renderChars v).length + 1) (renderChars v) = some (v, []) := by
    have h := (parse_render ((renderChars v).length + 1)).1 v []
      (by unfold costV; omega) noDigitHead_nil
    simpa using h
  unfold jloads jdumps
  simp only [toList_strMk]
  rw [hskip, hp]
  rfl

/-! ## Execution Log Entries

`SystemIntegrator._log_execution` builds
`\x7b'timestamp': ..., 'request_type': ..., 'parameters': ..., 'result': ...\x7d`,
appends it to the in-memory `execution_log` list, and appends
`json.dumps(log_entry, ensure_ascii=False) + '\n'` to the durable audit file
`logs/ai_integrations.log`.  Timestamps (`datetime.now().isoformat()`) are
modelled as opaque strings supplied by a logical clock in the state. -/

structure LogEntry where
  timestamp : String
  request_type : String
  parameters : JValue
  result : JValue

/-- The dict shape of a log entry, as built by `_log_execution`. -/
def entryToJ (e : LogEntry) : JValue :=
  .jobj [("timestamp", .jstr e.timestamp), ("request_type", .jstr e.request_type),
         ("parameters", e.parameters), ("result", e.result)]

/-- One line of the durable audit file: `json.dumps(log_entry, ensure_ascii=False)`. -/
def encodeEntry (e : LogEntry) : String :=
  jdumps (entryToJ e)

/-- Read an execution-log record back from its parsed JSON form. -/
def jToEntry : JValue → Option LogEntry
  | .jobj [("timestamp", .jstr t), ("request_type", .jstr rt),
           ("parameters", p), ("result", r)] => some ⟨t, rt, p, r⟩
  | _ => none

/-- Parse one audit-file line back into a log entry. -/
def decodeEntry (s : String) : Option LogEntry :=
  (jloads s).bind jToEntry

/-- Every audit line written by the logger parses back to the entry it came from. -/
theorem decodeEntry_encodeEntry (e : LogEntry) : decodeEntry (encodeEntry e) = some e := by
  unfold decodeEntry encodeEntry
  rw [jloads_jdumps]
  rfl

/-! ## The System Integrator (`system_integrator.py`)

State and exceptions.  In Python 3 `IOError` is an alias of `OSError`,
so `FileNotFoundError`, `IsADirectoryError` and `FileExistsError` are all
caught by `except IOError`; `subprocess.CalledProcessError`, `KeyError`,
`TypeError`, `AttributeError` and `requests` exceptions are not. -/

inductive PyErr where
  | ioError (msg : String)
  | valueError (msg : String)
  | attributeError (msg : String)
  | keyError (key : String)
  | typeError (msg : String)
  | calledProcessError (code : Int)
  | requestException (msg : String)
  | zeroDivisionError

/-- `str(e)` as interpolated into messages. -/
def PyErr.msg : PyErr → String
  | .ioError m => m
  | .valueError m => m
  | .attributeError m => m
  | .keyError k => "'" ++ k ++ "'"
  | .typeError m => m
  | .calledProcessError c => "Command returned non-zero exit status " ++ String.mk (intChars c) ++ "."
  | .requestException m => m
  | .zeroDivisionError => "division by zero"

/-- Is the exception caught by `except (IOError, ValueError)`
(`execute_ai_request`)? -/
def PyErr.caughtByExecute : PyErr → Bool
  | .ioError _ => true
  | .valueError _ => true
  | _ => false

/-- Python `str(v)` (approximate; scalar cases are exact, containers are
rendered as JSON, which differs from Python only in quote style). -/
def pyStrOf : JValue → String
  | .jnull => "None"
  | .jbool true => "True"
  | .jbool false => "False"
  | .jnum n => String.mk (intChars n)
  | .jstr s => s
  | v => jdumps v

/-- `params.get(k)` (`None` default): `AttributeError` when `params` is not
a dict. -/
def dictGet (params : JValue) (k : String) : Except PyErr JValue :=
  match params with
  | .jobj kvs => .ok ((jLookup kvs k).getD .jnull)
  | _ => .error (.attributeError "object has no attribute 'get'")

/-- `params.get(k, default)`. -/
def dictGetD (params : JValue) (k : String) (d : JValue) : Except PyErr JValue :=
  match params with
  | .jobj kvs => .ok ((jLookup kvs k).getD d)
  | _ => .error (.attributeError "object has no attribute 'get'")

/-- `params[k]`: `KeyError` when absent, `TypeError` when not a dict. -/
def dictIndex (params : JValue) (k : String) : Except PyErr JValue :=
  match params with
  | .jobj kvs =>
      match jLookup kvs k with
      | some v => .ok v
      | none => .error (.keyError k)
  | _ => .error (.typeError "object is not subscriptable")

/-- A value used where Python needs a `str` (`TypeError` otherwise). -/
def asStr : JValue → Except PyErr String
  | .jstr s => .ok s
  | _ => .error (.typeError "expected str")

/-- The ambient world: subprocess results, HTTP responses and the process
environment.  `cmdResult command cwd` gives `(returncode, stdout, stderr)`;
`http method url headers data` yields `(status_code, is_json, json_body,
text_body)` or a `requests` exception message. -/
structure World where
  cmdResult : String → String → Int × String × String
  http : String → String → JValue → JValue → Except String (Int × Bool × JValue × String)
  environ : String → Option String

/-- The filesystem: file contents plus the set of directories explicitly
created (`os.makedirs` is modelled as recording the requested path). -/
structure FS where
  files : List (String × String)
  dirs : List String

/-- Association-list lookup for file contents. -/
def fsLookup (files : List (String × String)) (p : String) : Option String :=
  match files with
  | [] => none
  | (q, c) :: rest => if q = p then some c else fsLookup rest p

/-- Update-or-append for file contents (`open(path, 'w')`). -/
def fsWrite (files : List (String × String)) (p c : String) : List (String × String) :=
  match files with
  | [] => [(p, c)]
  | (q, c') :: rest => if q = p then (p, c) :: rest else (q, c') :: fsWrite rest p c

/-- Remove a file (`os.remove`). -/
def fsRemove (files : List (String × String)) (p : String) : List (String × String) :=
  match files with
  | [] => []
  | (q, c) :: rest => if q = p then rest else (q, c) :: fsRemove rest p

/-- `os.path.exists`. -/
def pathExists (fs : FS) (p : String) : Bool :=
  (fsLookup fs.files p).isSome || fs.dirs.contains p

/-- Split a char list on a separator, keeping empty pieces. -/
def splitChAux (sep : Char) : List Char → List Char → List (List Char)
  | [], acc => [acc.reverse]
  | c :: rest, acc =>
      if c = sep then acc.reverse :: splitChAux sep rest []
      else splitChAux sep rest (c :: acc)

/-- Join strings with a separator. -/
def joinSep (sep : String) : List String → String
  | [] => ""
  | [x] => x
  | x :: xs => x ++ sep ++ joinSep sep xs

/-- `os.path.dirname` for the relative paths this program handles: the part
before the last `/`, and `""` when the path has no `/`. -/
def dirname (p : String) : String :=
  joinSep "/" (((splitChAux '/' p.toList []).map String.mk).dropLast)

example : dirname "a/b/c.txt" = "a/b" := by decide
example : dirname "file.txt" = "" := by decide

/-- `os.makedirs(p, exist_ok=True)`: `FileNotFoundError` on the empty path,
`FileExistsError` when a file occupies `p`; otherwise records the directory
(an already-recorded directory is fine: `exist_ok=True`). -/
def makedirs (fs : FS) (p : String) : Except PyErr FS :=
  if p = "" then .error (.ioError "[Errno 2] No such file or directory: ''")
  else if (fsLookup fs.files p).isSome then
    .error (.ioError ("[Errno 17] File exists: '" ++ p ++ "'"))
  else .ok { fs with dirs := if fs.dirs.contains p then fs.dirs else fs.dirs ++ [p] }

/-- The dispatcher state: the Enabled-Integrations Policy, the in-memory
execution log, the durable audit file (`logs/ai_integrations.log`, as a list
of lines), the filesystem and a logical clock for timestamps. -/
structure IState where
  enabled : List (String × Bool)
  execution_log : List LogEntry
  auditFile : List String
  fs : FS
  clock : Nat

/-- Timestamp string for tick `n` (`datetime.now().isoformat()` is opaque to
the claims; only its flow into entries matters). -/
def nowStr (n : Nat) : String :=
  String.mk ('t' :: natDigits (n + 1) n)

/-- `_load_enabled_integrations`: all eight request types enabled. -/
def loadEnabledIntegrations : List (String × Bool) :=
  [("file_system", true), ("git_operations", true), ("package_management", true),
   ("database_operations", true), ("api_calls", true), ("deployment", true),
   ("system_commands", true), ("environment_variables", true)]

/-- `enabled_integrations.get(request_type, False)`. -/
def enabledGet (enabled : List (String × Bool)) (rt : String) : Bool :=
  match enabled with
  | [] => false
  | (k, b) :: rest => if k = rt then b else enabledGet rest rt

/-- Dict assignment `enabled_integrations[t] = b` (update or append). -/
def enabledSet (enabled : List (String × Bool)) (rt : String) (b : Bool) :
    List (String × Bool) :=
  match enabled with
  | [] => [(rt, b)]
  | (k, b') :: rest => if k = rt then (rt, b) :: rest else (k, b') :: enabledSet rest rt b

/-- `SystemIntegrator(config)`. -/
def initState (fs : FS) : IState :=
  { enabled := loadEnabledIntegrations, execution_log := [], auditFile := [],
    fs := fs, clock := 0 }

/-- `enable_integration`. -/
def enableIntegration (st : IState) (rt : String) : IState :=
  { st with enabled := enabledSet st.enabled rt true }

/-- `disable_integration`. -/
def disableIntegration (st : IState) (rt : String) : IState :=
  { st with enabled := enabledSet st.enabled rt false }

/-- `_log_execution`: build the entry, append it to the in-memory list, make
sure `logs/` exists, and append one `json.dumps` line to the audit file. -/
def logExecution (st : IState) (rt : String) (params : JValue) (result : JValue) : IState :=
  let entry : LogEntry := ⟨nowStr st.clock, rt, params, result⟩
  { st with
    execution_log := st.execution_log ++ [entry],
    auditFile := st.auditFile ++ [encodeEntry entry],
    fs := { st.fs with
      dirs := if st.fs.dirs.contains "logs" then st.fs.dirs else st.fs.dirs ++ ["logs"] },
    clock := st.clock + 1 }

/-! ### Handlers -/

/-- `_create_file`: create parent directories, then write (overwrite) the
file; an `IOError` is re-raised as `IOError('فشل في إنشاء الملف …')`. -/
def createFile (path content : String) (st : IState) : Except PyErr (JValue × IState) :=
  match makedirs st.fs (dirname path) with
  | .error e => .error (.ioError ("فشل في إنشاء الملف " ++ path ++ ": " ++ e.msg))
  | .ok fs' =>
      .ok (.jobj [("success", .jbool true),
                  ("message", .jstr ("تم إنشاء الملف: " ++ path)),
                  ("timestamp", .jstr (nowStr st.clock))],
           { st with fs := { fs' with files := fsWrite fs'.files path content },
                     clock := st.clock + 1 })

/-- `_delete_file`: `os.remove`; an `OSError` is re-raised as
`OSError('فشل في حذف الملف …')`. -/
def deleteFile (path : String) (st : IState) : Except PyErr (JValue × IState) :=
  if (fsLookup st.fs.files path).isSome then
    .ok (.jobj [("success", .jbool true),
                ("message", .jstr ("تم حذف الملف: " ++ path)),
                ("timestamp", .jstr (nowStr st.clock))],
         { st with fs := { st.fs with files := fsRemove st.fs.files path },
                   clock := st.clock + 1 })
  else
    .error (.ioError ("فشل في حذف الملف " ++ path ++ ": [Errno 2] No such file or directory: '"
      ++ path ++ "'"))

/-- `_create_directory`: `os.makedirs(path, exist_ok=True)`; an `OSError` is
re-raised as `OSError('فشل في إنشاء المجلد …')`. -/
def createDirectory (path : String) (st : IState) : Except PyErr (JValue × IState) :=
  match makedirs st.fs path with
  | .error e => .error (.ioError ("فشل في إنشاء المجلد " ++ path ++ ": " ++ e.msg))
  | .ok fs' =>
      .ok (.jobj [("success", .jbool true),
                  ("message", .jstr ("تم إنشاء المجلد: " ++ path)),
                  ("timestamp", .jstr (nowStr st.clock))],
           { st with fs := fs', clock := st.clock + 1 })

/-- Python `content.replace(old, new)` for a non-empty pattern, fueled by the
input length (Python's empty-pattern interleaving is not modelled; this
program's replace maps come from request payloads). -/
def replaceFuel (fuel : Nat) (old new cs : List Char) : List Char :=
  match fuel, cs with
  | 0, cs => cs
  | _, [] => []
  | f + 1, c :: rest =>
      if listPre old (c :: rest) && !old.isEmpty then
        new ++ replaceFuel f old new (List.drop (old.length - 1) rest)
      else c :: replaceFuel f old new rest

/-- Python `content.replace(old, new)`. -/
def pyReplace (s old new : String) : String :=
  String.mk (replaceFuel s.toList.length old.toList new.toList s.toList)

example : pyReplace "aXbXc" "X" "--" = "a--b--c" := by decide
example : pyReplace "aaaa" "aa" "b" = "bb" := by decide

/-- Apply a `replace` mapping: `for old, new in changes['replace'].items()`. -/
def applyReplace (content : String) : List (String × JValue) → Except PyErr String
  | [] => .ok content
  | (old, newv) :: rest => do
      let n ← asStr newv
      applyReplace (pyReplace content old n) rest

/-- `_modify_file`: fails when the target is absent, else applies `replace`,
`append`, `prepend` in that order; `IOError`/`FileNotFoundError` is re-raised
as `IOError('فشل في تعديل الملف …')`. -/
def modifyFile (path : String) (changes : JValue) (st : IState) :
    Except PyErr (JValue × IState) :=
  let wrap : PyErr → PyErr := fun e =>
    .ioError ("فشل في تعديل الملف " ++ path ++ ": " ++ e.msg)
  if pathExists st.fs path = false then
    .error (wrap (.ioError ("الملف غير موجود: " ++ path)))
  else
    match fsLookup st.fs.files path with
    | none =>
        .error (wrap (.ioError ("[Errno 21] Is a directory: '" ++ path ++ "'")))
    | some content =>
        Except.mapError wrap (do
          let c1 ←
            match changes with
            | .jobj kvs =>
                match jLookup kvs "replace" with
                | some (.jobj m) => applyReplace content m
                | some _ => .error (.attributeError "object has no attribute 'items'")
                | none => .ok content
            | _ => .error (.typeError "argument of type is not iterable")
          let c2 ←
            match changes with
            | .jobj kvs =>
                match jLookup kvs "append" with
                | some v => do
                    let a ← asStr v
                    pure (c1 ++ a)
                | none => pure c1
            | _ => .error (.typeError "argument of type is not iterable")
          let c3 ←
            match changes with
            | .jobj kvs =>
                match jLookup kvs "prepend" with
                | some v => do
                    let p ← asStr v
                    pure (p ++ c2)
                | none => pure c2
            | _ => .error (.typeError "argument of type is not iterable")
          pure ((.jobj [("success", .jbool true),
                       ("message", .jstr ("تم تعديل الملف: " ++ path)),
                       ("timestamp", .jstr (nowStr st.clock))],
                { st with fs := { st.fs with files := fsWrite st.fs.files path c3 },
                          clock := st.clock + 1 }) : JValue × IState))

/-- `_handle_file_operations`: dispatch on the `operation` sub-field; an
unknown operation raises `ValueError`. -/
def handleFileOperations (params : JValue) (st : IState) : Except PyErr (JValue × IState) := do
  let operation ← dictGet params "operation"
  if operation.isStrEq "create_file" then do
    let p ← dictIndex params "path"
    let c ← dictIndex params "content"
    let ps ← asStr p
    let cs ← asStr c
    createFile ps cs st
  else if operation.isStrEq "modify_file" then do
    let p ← dictIndex params "path"
    let ch ← dictIndex params "changes"
    let ps ← asStr p
    modifyFile ps ch st
  else if operation.isStrEq "delete_file" then do
    let p ← dictIndex params "path"
    let ps ← asStr p
    deleteFile ps st
  else if operation.isStrEq "create_directory" then do
    let p ← dictIndex params "path"
    let ps ← asStr p
    createDirectory ps st
  else
    .error (.valueError ("عملية ملف غير معروفة: " ++ pyStrOf operation))

/-- `_handle_system_commands`: `subprocess.run(command, shell=True,
cwd=working_dir, capture_output=True, text=True, check=True)`; `check=True`
raises `CalledProcessError` on a non-zero return code, so the `success`
field is `True` whenever the result is reached. -/
def handleSystemCommands (world : World) (params : JValue) (st : IState) :
    Except PyErr (JValue × IState) := do
  let cmdv ← dictIndex params "command"
  let cmd ← asStr cmdv
  let wdv ← dictGetD params "working_dir" (.jstr ".")
  let wd ← asStr wdv
  let r := world.cmdResult cmd wd
  if r.1 ≠ 0 then .error (.calledProcessError r.1)
  else
    .ok (.jobj [("success", .jbool (r.1 == 0)), ("stdout", .jstr r.2.1),
                ("stderr", .jstr r.2.2), ("return_code", .jnum r.1),
                ("timestamp", .jstr (nowStr st.clock))],
         { st with clock := st.clock + 1 })

/-- `_install_package`: `subprocess.run(['pip', 'install', package],
check=True)` (the argument vector is modelled as the joined command line). -/
def installPackage (world : World) (pkg : String) (st : IState) :
    Except PyErr (JValue × IState) :=
  let r := world.cmdResult ("pip install " ++ pkg) "."
  if r.1 ≠ 0 then .error (.calledProcessError r.1)
  else
    .ok (.jobj [("success", .jbool (r.1 == 0)),
                ("message", .jstr ("تثبيت الحزمة: " ++ pkg)),
                ("output", .jstr r.2.1), ("error", .jstr r.2.2),
                ("timestamp", .jstr (nowStr st.clock))],
         { st with clock := st.clock + 1 })

/-- `_handle_package_operations`. -/
def handlePackageOperations (world : World) (params : JValue) (st : IState) :
    Except PyErr (JValue × IState) := do
  let operation ← dictGet params "operation"
  if operation.isStrEq "install" then do
    let p ← dictIndex params "package"
    let ps ← asStr p
    installPackage world ps st
  else if operation.isStrEq "uninstall" then do
    let p ← dictIndex params "package"
    let ps ← asStr p
    handleSystemCommands world (.jobj [("command", .jstr ("pip uninstall -y " ++ ps))]) st
  else if operation.isStrEq "update" then
    handleSystemCommands world
      (.jobj [("command", .jstr "pip install --upgrade -r requirements.txt")]) st
  else
    .error (.valueError ("عملية حزمة غير معروفة: " ++ pyStrOf operation))

/-- `_handle_database_operations`: all three operations return static
not-implemented failures. -/
def handleDatabaseOperations (params : JValue) (st : IState) :
    Except PyErr (JValue × IState) := do
  let operation ← dictGet params "operation"
  if operation.isStrEq "execute_query" then do
    let _ ← dictIndex params "query"
    .ok (.jobj [("success", .jbool false),
                ("error", .jstr "Database connection not implemented"),
                ("timestamp", .jstr (nowStr st.clock))],
         { st with clock := st.clock + 1 })
  else if operation.isStrEq "backup" then
    .ok (.jobj [("success", .jbool false),
                ("error", .jstr "Database backup not implemented"),
                ("timestamp", .jstr (nowStr st.clock))],
         { st with clock := st.clock + 1 })
  else if operation.isStrEq "migrate" then
    .ok (.jobj [("success", .jbool false),
                ("error", .jstr "Database migration not implemented"),
                ("timestamp", .jstr (nowStr st.clock))],
         { st with clock := st.clock + 1 })
  else
    .error (.valueError ("عملية قاعدة بيانات غير معروفة: " ++ pyStrOf operation))

/-- `_handle_api_calls`: one HTTP request; the response body is parsed as
JSON when the content type says so; `requests` exceptions propagate. -/
def handleApiCalls (world : World) (params : JValue) (st : IState) :
    Except PyErr (JValue × IState) := do
  let methodv ← dictGetD params "method" (.jstr "GET")
  let method ← asStr methodv
  let urlv ← dictIndex params "url"
  let url ← asStr urlv
  let headers ← dictGetD params "headers" (.jobj [])
  let data ← dictGet params "data"
  match world.http method url headers data with
  | .error m => .error (.requestException m)
  | .ok (status, isJson, body, text) =>
      .ok (.jobj [("success", .jbool true), ("status_code", .jnum status),
                  ("response", if isJson then body else .jstr text),
                  ("timestamp", .jstr (nowStr st.clock))],
           { st with clock := st.clock + 1 })

/-- `_handle_deployment`: every platform returns a static not-implemented
failure; an unsupported platform raises `ValueError`. -/
def handleDeployment (params : JValue) (st : IState) : Except PyErr (JValue × IState) := do
  let platform ← dictGetD params "platform" (.jstr "heroku")
  if platform.isStrEq "heroku" then
    .ok (.jobj [("success", .jbool false),
                ("error", .jstr "Heroku deployment not implemented"),
                ("timestamp", .jstr (nowStr st.clock))],
         { st with clock := st.clock + 1 })
  else if platform.isStrEq "aws" then
    .ok (.jobj [("success", .jbool false),
                ("error", .jstr "AWS deployment not implemented"),
                ("timestamp", .jstr (nowStr st.clock))],
         { st with clock := st.clock + 1 })
  else if platform.isStrEq "docker" then
    .ok (.jobj [("success", .jbool false),
                ("error", .jstr "Docker deployment not implemented"),
                ("timestamp", .jstr (nowStr st.clock))],
         { st with clock := st.clock + 1 })
  else
    .error (.valueError ("منصة نشر غير مدعومة: " ++ pyStrOf platform))

/-- Split on the first `=` (`line.strip().split('=', 1)`), assuming one is
present. -/
def splitEq1 : List Char → List Char × List Char
  | [] => ([], [])
  | c :: rest =>
      if c = '=' then ([], rest)
      else
        let p := splitEq1 rest
        (c :: p.1, p.2)

/-- Lines of a file as Python `for line in f` / `f.readlines()` yields them:
each keeps its trailing newline. -/
def linesKeepNlAux : List Char → List Char → List (List Char)
  | [], acc => if acc.isEmpty then [] else [acc.reverse]
  | c :: rest, acc =>
      if c = '\n' then (c :: acc).reverse :: linesKeepNlAux rest []
      else linesKeepNlAux rest (c :: acc)

/-- File content split into newline-terminated lines. -/
def linesKeepNl (s : String) : List String :=
  (linesKeepNlAux s.toList []).map String.mk

example : linesKeepNl "A=1\nB=2\n" = ["A=1\n", "B=2\n"] := by decide
example : linesKeepNl "A=1\nB" = ["A=1\n", "B"] := by decide

/-- Parse the `.env` file into a dict: a line participates when it contains
`=` and does not start with `#`; `k, v = line.strip().split('=', 1)`. -/
def parseEnvLines (vars : List (String × String)) : List String → List (String × String)
  | [] => vars
  | line :: rest =>
      if strContains line "=" && !(listPre "#".toList line.toList) then
        let p := splitEq1 (pyStrip line).toList
        parseEnvLines (fsWrite vars (String.mk p.1) (String.mk p.2)) rest
      else parseEnvLines vars rest

/-- `_set_env_variable`: read `.env` (when present), update the key, rewrite
the whole file as `k=v` lines. -/
def setEnvVariable (key value : String) (st : IState) : Except PyErr (JValue × IState) :=
  let envVars :=
    match fsLookup st.fs.files ".env" with
    | some content => parseEnvLines [] (linesKeepNl content)
    | none => []
  let envVars := fsWrite envVars key value
  let content := String.join (envVars.map (fun p => p.1 ++ "=" ++ p.2 ++ "\n"))
  .ok (.jobj [("success", .jbool true),
              ("message", .jstr ("تم تعيين متغير البيئة: " ++ key)),
              ("timestamp", .jstr (nowStr st.clock))],
       { st with fs := { st.fs with files := fsWrite st.fs.files ".env" content },
                 clock := st.clock + 1 })

/-- `_get_env_variable`: reads the live process environment, not the file. -/
def getEnvVariable (world : World) (key : String) (st : IState) :
    Except PyErr (JValue × IState) :=
  let value := world.environ key
  .ok (.jobj [("success", .jbool value.isSome), ("key", .jstr key),
              ("value", match value with | some v => .jstr v | none => .jnull),
              ("timestamp", .jstr (nowStr st.clock))],
       { st with clock := st.clock + 1 })

/-- `_delete_env_variable`: filter out lines starting `key=`, keep the rest
verbatim; succeeds whether or not the file exists. -/
def deleteEnvVariable (key : String) (st : IState) : Except PyErr (JValue × IState) :=
  let fs' :=
    match fsLookup st.fs.files ".env" with
    | some content =>
        let kept := (linesKeepNl content).filter
          (fun line => !(listPre (key ++ "=").toList line.toList))
        { st.fs with files := fsWrite st.fs.files ".env" (String.join kept) }
    | none => st.fs
  .ok (.jobj [("success", .jbool true),
              ("message", .jstr ("تم حذف متغير البيئة: " ++ key)),
              ("timestamp", .jstr (nowStr st.clock))],
       { st with fs := fs', clock := st.clock + 1 })

/-- `_handle_env_operations`. -/
def handleEnvOperations (world : World) (params : JValue) (st : IState) :
    Except PyErr (JValue × IState) := do
  let operation ← dictGet params "operation"
  if operation.isStrEq "set" then do
    let k ← dictIndex params "key"
    let v ← dictIndex params "value"
    let ks ← asStr k
    let vs ← asStr v
    setEnvVariable ks vs st
  else if operation.isStrEq "get" then do
    let k ← dictIndex params "key"
    let ks ← asStr k
    getEnvVariable world ks st
  else if operation.isStrEq "delete" then do
    let k ← dictIndex params "key"
    let ks ← asStr k
    deleteEnvVariable ks st
  else
    .error (.valueError ("عملية متغير بيئة غير معروفة: " ++ pyStrOf operation))

/-- `_git_commit` (defined but unreachable through routing). -/
def gitCommit (world : World) (message : String) (st : IState) :
    Except PyErr (JValue × IState) :=
  handleSystemCommands world
    (.jobj [("command", .jstr ("git commit -m \"" ++ message ++ "\""))]) st

/-- `_git_push` (defined but unreachable through routing). -/
def gitPush (world : World) (branch : String) (st : IState) :
    Except PyErr (JValue × IState) :=
  handleSystemCommands world (.jobj [("command", .jstr ("git push origin " ++ branch))]) st

/-- `_git_create_branch` (defined but unreachable through routing). -/
def gitCreateBranch (world : World) (branch : String) (st : IState) :
    Except PyErr (JValue × IState) :=
  handleSystemCommands world (.jobj [("command", .jstr ("git checkout -b " ++ branch))]) st

/-! ### Routing and dispatch -/

/-- Handler methods, as tags. -/
inductive Handler where
  | fileOps
  | packageOps
  | databaseOps
  | apiCalls
  | deployment
  | systemCommands
  | envOps

/-- Attribute lookup on a `SystemIntegrator` instance: the class defines the
seven handler methods below (plus helpers), but **not**
`_handle_git_operations` — the routing table names a method that does not
exist, so resolving it raises `AttributeError`. -/
def resolveHandler : String → Except PyErr Handler
  | "_handle_file_operations" => .ok .fileOps
  | "_handle_package_operations" => .ok .packageOps
  | "_handle_database_operations" => .ok .databaseOps
  | "_handle_api_calls" => .ok .apiCalls
  | "_handle_deployment" => .ok .deployment
  | "_handle_system_commands" => .ok .systemCommands
  | "_handle_env_operations" => .ok .envOps
  | name =>
      .error (.attributeError ("'SystemIntegrator' object has no attribute '" ++ name ++ "'"))

/-- The `handlers` dict literal of `_route_request`, entry by entry in source
order: each value is an attribute reference, resolved when the dict is
built. -/
def handlerRefs : List (String × String) :=
  [("file_system", "_handle_file_operations"),
   ("git_operations", "_handle_git_operations"),
   ("package_management", "_handle_package_operations"),
   ("database_operations", "_handle_database_operations"),
   ("api_calls", "_handle_api_calls"),
   ("deployment", "_handle_deployment"),
   ("system_commands", "_handle_system_commands"),
   ("environment_variables", "_handle_env_operations")]

/-- Resolve the dict literal's values left to right (Python evaluates them
in source order; the first failing lookup raises). -/
def buildHandlers : List (String × String) → Except PyErr (List (String × Handler))
  | [] => .ok []
  | (rt, attr) :: rest => do
      let h ← resolveHandler attr
      let tl ← buildHandlers rest
      .ok ((rt, h) :: tl)

/-- Building the routing table always raises `AttributeError`: its second
entry references the undefined `_handle_git_operations`. -/
theorem buildHandlers_raises :
    buildHandlers handlerRefs =
      .error (.attributeError
        "'SystemIntegrator' object has no attribute '_handle_git_operations'") := rfl

/-- `handlers.get(request_type)`. -/
def handlersGet (handlers : List (String × Handler)) (rt : String) : Option Handler :=
  match handlers with
  | [] => none
  | (k, h) :: rest => if k = rt then some h else handlersGet rest rt

/-- Run one handler. -/
def runHandler (world : World) : Handler → JValue → IState → Except PyErr (JValue × IState)
  | .fileOps => handleFileOperations
  | .packageOps => handlePackageOperations world
  | .databaseOps => handleDatabaseOperations
  | .apiCalls => handleApiCalls world
  | .deployment => handleDeployment
  | .systemCommands => handleSystemCommands world
  | .envOps => handleEnvOperations world

/-- `_route_request`: build the handler table (which raises, see
`buildHandlers_raises`), look the type up (`ValueError` when unknown), and
run the handler. -/
def routeRequest (world : World) (rt : String) (params : JValue) (st : IState) :
    Except PyErr (JValue × IState) := do
  let handlers ← buildHandlers handlerRefs
  match handlersGet handlers rt with
  | none => .error (.valueError ("معالج غير معروف: " ++ rt))
  | some h => runHandler world h params st

/-- `execute_ai_request`: the policy gate returns a failure dict immediately
(without logging); otherwise the request is routed and the outcome logged,
with `except (IOError, ValueError)` converting exactly those two exception
classes into logged failure dicts — anything else propagates. -/
def executeAiRequest (world : World) (st : IState) (rt : String) (params : JValue) :
    Except PyErr (JValue × IState) :=
  if enabledGet st.enabled rt = false then
    .ok (.jobj [("success", .jbool false),
                ("error", .jstr ("التكامل " ++ rt ++ " غير مفعل")),
                ("timestamp", .jstr (nowStr st.clock))],
         { st with clock := st.clock + 1 })
  else
    match routeRequest world rt params st with
    | .ok (result, st') => .ok (result, logExecution st' rt params result)
    | .error e =>
        if e.caughtByExecute then
          let errRes : JValue :=
            .jobj [("success", .jbool false), ("error", .jstr e.msg),
                   ("timestamp", .jstr (nowStr st.clock))]
          .ok (errRes, logExecution { st with clock := st.clock + 1 } rt params errRes)
        else .error e

/-- `get_execution_history`. -/
def getExecutionHistory (st : IState) : List LogEntry :=
  st.execution_log

/-- A benign world: every command succeeds with empty output, the network is
unreachable, the environment is empty. -/
def quietWorld : World :=
  { cmdResult := fun _ _ => (0, "", ""),
    http := fun _ _ _ _ => .error "connection error",
    environ := fun _ => none }

/-- The empty filesystem. -/
def emptyFS : FS := { files := [], dirs := [] }

example :
    executeAiRequest quietWorld (initState emptyFS) "file_system"
        (.jobj [("operation", .jstr "create_file"), ("path", .jstr "a/b.txt"),
                ("content", .jstr "hi")])
      = .error (.attributeError
          "'SystemIntegrator' object has no attribute '_handle_git_operations'") := rfl

example :
    handleFileOperations
        (.jobj [("operation", .jstr "create_file"), ("path", .jstr "a/b.txt"),
                ("content", .jstr "hi")])
        (initState emptyFS)
      = .ok (.jobj [("success", .jbool true), ("message", .jstr "تم إنشاء الملف: a/b.txt"),
                    ("timestamp", .jstr "t0")],
             { enabled := loadEnabledIntegrations, execution_log := [], auditFile := [],
               fs := { files := [("a/b.txt", "hi")], dirs := ["a"] }, clock := 1 }) := rfl

example :
    handleFileOperations
        (.jobj [("operation", .jstr "create_file"), ("path", .jstr "file.txt"),
                ("content", .jstr "hi")])
        (initState emptyFS)
      = .error (.ioError
          "فشل في إنشاء الملف file.txt: [Errno 2] No such file or directory: ''") := rfl

/-! ## The integration-request scanner
(`EnhancedOrchestrator._process_integration_requests`)

A line state machine over `response_content.split('\n')`: a line containing
` ```json ` (with at least one following line) opens a block; lines are
collected until one containing ` ``` `; the collected payload is parsed and
either dispatched, re-emitted, or replaced by an error line.  The dispatch
seam (`_execute_integration_request`) is a parameter `exec` threading a
state `σ` (the `SystemIntegrator` in the composed system). -/

/-- Outcome of `_execute_integration_request`: a returned dict, or a raised
exception rendered by `str(e)`. -/
inductive ExecO where
  | res (r : JValue)
  | raised (msg : String)

/-- The replacement line for a dispatched request:
`f"✅ **تم تنفيذ العملية:** {result['message'] if result['success'] else result['error']}"`.
Building it can itself raise (`KeyError` on a result missing the accessed
key), which the scanner's `except Exception` turns into an error line. -/
def outcomeLine (r : JValue) : Except String String :=
  match pyIndex r "success" with
  | .error m => .error m
  | .ok sv =>
      if sv.truthy then
        match pyIndex r "message" with
        | .ok v => .ok ("✅ **تم تنفيذ العملية:** " ++ pyStrOf v)
        | .error m => .error m
      else
        match pyIndex r "error" with
        | .ok v => .ok ("✅ **تم تنفيذ العملية:** " ++ pyStrOf v)
        | .error m => .error m

/-- Process one collected payload: the `try` body around `json.loads` and
dispatch.  Returns the replacement lines, the result to record (appended to
`integration_results` exactly when the seam returned), and the state. -/
def processPayload (σ : Type) (exec : σ → JValue → ExecO × σ) (payload : String) (s : σ) :
    List String × Option JValue × σ :=
  match jloads payload with
  | none => (["```json", payload, "```"], none, s)
  | some v =>
      match pyContains v "integration_request" with
      | .error m => (["❌ **خطأ في التنفيذ:** " ++ m], none, s)
      | .ok false => (["```json", payload, "```"], none, s)
      | .ok true =>
          match pyIndex v "integration_request" with
          | .error m => (["❌ **خطأ في التنفيذ:** " ++ m], none, s)
          | .ok req =>
              match exec s req with
              | (.raised m, s') => (["❌ **خطأ في التنفيذ:** " ++ m], none, s')
              | (.res r, s') =>
                  match outcomeLine r with
                  | .ok l => ([l], some r, s')
                  | .error m => (["❌ **خطأ في التنفيذ:** " ++ m], some r, s')

/-- The scan loop.  The second argument is the mode: `none` while scanning,
`some acc` inside a block with `acc` the collected `json_content`.  An open
block at end of input consumes the remainder as its payload. -/
def scanLines (σ : Type) (exec : σ → JValue → ExecO × σ) :
    List String → Option String → σ → List String × List JValue × σ
  | [], none, s => ([], [], s)
  | [], some acc, s =>
      let b := processPayload σ exec (pyStrip acc) s
      (b.1, b.2.1.toList, b.2.2)
  | line :: rest, none, s =>
      if strContains line "```json" && !rest.isEmpty then
        scanLines σ exec rest (some "") s
      else
        let p := scanLines σ exec rest none s
        (line :: p.1, p.2.1, p.2.2)
  | line :: rest, some acc, s =>
      if strContains line "```" then
        let b := processPayload σ exec (pyStrip acc) s
        let p := scanLines σ exec rest none b.2.2
        (b.1 ++ p.1, b.2.1.toList ++ p.2.1, p.2.2)
      else
        scanLines σ exec rest (some (acc ++ line ++ "\n")) s

/-- One summary item:
`f"{i}. {status} {result.get('message', result.get('error', 'عملية غير محددة'))}"`
with `status` from `result['success']` (which can raise). -/
def summaryItem (idx : Nat) (r : JValue) : Except String String :=
  match pyIndex r "success" with
  | .error m => .error m
  | .ok sv =>
      match r with
      | .jobj kvs =>
          let value := (jLookup kvs "message").getD
            ((jLookup kvs "error").getD (.jstr "عملية غير محددة"))
          .ok (String.mk (natDigits (idx + 1) idx) ++ ". " ++
            (if sv.truthy then "✅" else "❌") ++ " " ++ pyStrOf value)
      | _ => .error "object has no attribute 'get'"

/-- The summary list, numbered from 1. -/
def summaryList (idx : Nat) : List JValue → Except String (List String)
  | [] => .ok []
  | r :: rest => do
      let l ← summaryItem idx r
      let ls ← summaryList (idx + 1) rest
      .ok (l :: ls)

/-- `_process_integration_requests`: scan, then append the summary section
when at least one request was dispatched.  The first component is the
rewritten text or an uncaught exception (the summary loop is outside any
`try`); the state component survives either way. -/
def processIntegrationRequests (σ : Type) (exec : σ → JValue → ExecO × σ)
    (text : String) (s : σ) : Except String String × σ :=
  let p := scanLines σ exec (pySplitLines text) none s
  if p.2.1.isEmpty then (.ok (joinLines p.1), p.2.2)
  else
    match summaryList 1 p.2.1 with
    | .ok items =>
        (.ok (joinLines (p.1 ++ "\n## ملخص العمليات المنفذة:" :: items)), p.2.2)
    | .error m => (.error m, p.2.2)

/-- `_execute_integration_request` composed with the real dispatcher:
`request.get('type')` / `request.get('parameters', {})`, then
`execute_ai_request`.  A non-dict request raises `AttributeError`; a
missing or non-string `type` fails the policy lookup and is rejected
(unlogged), like any unknown type. -/
def execViaIntegrator (world : World) (st : IState) (req : JValue) : ExecO × IState :=
  match req with
  | .jobj kvs =>
      match (jLookup kvs "type").getD .jnull with
      | .jstr rt =>
          match executeAiRequest world st rt ((jLookup kvs "parameters").getD (.jobj [])) with
          | .ok (r, st') => (.res r, st')
          | .error e => (.raised e.msg, st)
      | other =>
          (.res (.jobj [("success", .jbool false),
                        ("error", .jstr ("التكامل " ++ pyStrOf other ++ " غير مفعل")),
                        ("timestamp", .jstr (nowStr st.clock))]),
           { st with clock := st.clock + 1 })
  | _ => (.raised "object has no attribute 'get'", st)

/-! ## The orchestrators
(`enhanced_orchestrator.py` `EnhancedOrchestrator`,
`base_orchestrator.py` `BaseOrchestrator`)

Template loading/rendering and the model generation service are external
collaborators; their per-phase / per-attempt outcomes are an environment.
`modelOutcome k a` is what attempt `a` of phase `k`'s model call produces:
the response text, or the message of the exception raised (system-prompt
read failure or API failure). -/

structure OrchEnv where
  world : World
  userTemplate : Except String Unit
  taskPrompt : Nat → Except String String
  modelOutcome : Nat → Nat → Except String String

/-- The fixed phase list of `EnhancedOrchestrator` (all integration-allowed). -/
def phasesE : List (String × String × Bool) :=
  [("Phase 0", "Ideation", true), ("Phase 1", "Research", true),
   ("Phase 2", "Design", true), ("Phase 3", "Development Plan", true),
   ("Phase 4", "Execution", true), ("Phase 5", "Review & Optimize", true),
   ("Phase 6", "Deploy & Integrate", true)]

/-- The body of one `call_model_with_integration` attempt: model call, then
(when integration is active) the scanner over the response.  Returns the
value or the raised exception's message, and the (possibly mutated)
integrator state. -/
def attemptBody (env : OrchEnv) (phase : Nat) (enInt : Bool) (attempt : Nat) (st : IState) :
    Except String String × IState :=
  match env.modelOutcome phase attempt with
  | .error m => (.error m, st)
  | .ok raw =>
      if enInt then processIntegrationRequests IState (execViaIntegrator env.world) raw st
      else (.ok raw, st)

/-- Trace of one `call_model_with_integration` invocation. -/
structure CallTrace where
  sleeps : List Nat
  attempts : Nat
  response : Option String
  state : IState

/-- The retry loop of `call_model_with_integration`: `remaining` iterations
left, zero-indexed `attempt` next.  On an exception: warn, sleep
`2^attempt + 1` when not the last attempt, and on the last attempt return
the error string embedding `str(e)`.  An empty loop (`max_retries = 0`)
falls off the function, returning `None`. -/
def callModelAux (env : OrchEnv) (phase : Nat) (enInt : Bool) :
    Nat → Nat → IState → CallTrace
  | 0, _, st => { sleeps := [], attempts := 0, response := none, state := st }
  | remaining + 1, attempt, st =>
      match attemptBody env phase enInt attempt st with
      | (.ok resp, st') =>
          { sleeps := [], attempts := 1, response := some resp, state := st' }
      | (.error m, st') =>
          if remaining = 0 then
            { sleeps := [], attempts := 1,
              response := some ("خطأ: لم يتمكن من الحصول على استجابة من النموذج. " ++ m),
              state := st' }
          else
            let p := callModelAux env phase enInt remaining (attempt + 1) st'
            { sleeps := (2 ^ attempt + 1) :: p.sleeps, attempts := p.attempts + 1,
              response := p.response, state := p.state }

/-- `call_model_with_integration(prompt, enable_integration, max_retries)`. -/
def callModelWithIntegration (env : OrchEnv) (phase : Nat) (enInt : Bool)
    (maxRetries : Nat) (st : IState) : CallTrace :=
  callModelAux env phase enInt maxRetries 0 st

/-- The per-phase loop of `process_topic_enhanced`: renders the task prompt
(failure is caught and recorded as a `failed` phase; the loop continues),
calls the model, and records a `success` phase with the returned text. -/
def phaseLoopE (env : OrchEnv) (enableIntegration : Bool) :
    Nat → List (String × String × Bool) → List (String × JValue) → Nat → IState →
      List (String × JValue) × Nat × IState
  | _, [], recs, succ, st => (recs, succ, st)
  | k, (code, name, integrationAllowed) :: rest, recs, succ, st =>
      match env.taskPrompt k with
      | .error m =>
          let record : JValue :=
            .jobj [("phase", .jstr name), ("error", .jstr m),
                   ("status", .jstr "failed"), ("timestamp", .jstr (nowStr st.clock))]
          phaseLoopE env enableIntegration (k + 1) rest (recs ++ [(code, record)]) succ
            { st with clock := st.clock + 1 }
      | .ok promptText =>
          let phInt := enableIntegration && integrationAllowed
          let tr := callModelWithIntegration env k phInt 3 st
          let record : JValue :=
            .jobj [("phase", .jstr name), ("prompt", .jstr promptText),
                   ("response", match tr.response with | some r => .jstr r | none => .jnull),
                   ("status", .jstr "success"),
                   ("integration_enabled", .jbool phInt),
                   ("timestamp", .jstr (nowStr tr.state.clock))]
          phaseLoopE env enableIntegration (k + 1) rest (recs ++ [(code, record)]) (succ + 1)
            { tr.state with clock := tr.state.clock + 1 }

/-- Round-half-even of `s/t*100` to one decimal, in tenths of a percent. -/
def rate1dp (s t : Nat) : Nat :=
  let num := s * 1000
  let q := num / t
  let r := num % t
  if 2 * r < t then q
  else if 2 * r > t then q + 1
  else if q % 2 = 0 then q else q + 1

/-- Render `m` tenths of a percent as `"<n>.<d>%"`. -/
def fmtPercent (m : Nat) : String :=
  String.mk (natDigits (m / 10 + 1) (m / 10)) ++ "." ++
    String.mk (natDigits (m % 10 + 1) (m % 10)) ++ "%"

/-- `f"{(successful_phases/total_phases*100):.1f}%"`: a `ZeroDivisionError`
when `total_phases = 0`, else the percentage to one decimal place. -/
def successRateStr (s t : Nat) : Except PyErr String :=
  if t = 0 then .error .zeroDivisionError
  else .ok (fmtPercent (rate1dp s t))

example : successRateStr 7 7 = .ok "100.0%" := rfl
example : successRateStr 5 7 = .ok "71.4%" := rfl
example : successRateStr 0 7 = .ok "0.0%" := rfl
example : successRateStr 0 0 = .error .zeroDivisionError := rfl

/-- `process_topic_enhanced(topic, enable_integration)`: `None` when the
user template cannot be loaded; otherwise the Run Output with metadata,
per-phase records and the integrator's execution log attached. -/
def processTopicEnhanced (env : OrchEnv) (topic : String) (enableIntegration : Bool)
    (fs0 : FS) : Except PyErr (Option JValue) :=
  match env.userTemplate with
  | .error _ => .ok none
  | .ok _ =>
      let st0 := { initState fs0 with clock := 1 }
      let p := phaseLoopE env enableIntegration 0 phasesE [] 0 st0
      match successRateStr p.2.1 phasesE.length with
      | .error e => .error e
      | .ok rate =>
          .ok (some (.jobj [
            ("metadata", .jobj [
              ("topic", .jstr topic), ("timestamp", .jstr (nowStr 0)),
              ("total_phases", .jnum (phasesE.length : Nat)),
              ("integration_enabled", .jbool enableIntegration),
              ("successful_phases", .jnum (p.2.1 : Nat)),
              ("success_rate", .jstr rate)]),
            ("phases", .jobj p.1),
            ("integration_log", .jarr (p.2.2.execution_log.map entryToJ))]))

/-- The retry loop of `BaseOrchestrator.call_model` (same backoff shape;
catches `(IOError, json.JSONDecodeError)`; explicit `return None` after an
empty loop). -/
def callModelBase (env : OrchEnv) (phase : Nat) (maxRetries : Nat) (st : IState) : CallTrace :=
  callModelAux env phase false maxRetries 0 st

/-- The per-phase loop of `BaseOrchestrator.process_topic` over an arbitrary
`self.phases` (the base class initializes it to `[]`); phase records carry
no `integration_enabled` field. -/
def phaseLoopB (env : OrchEnv) :
    Nat → List (String × String) → List (String × JValue) → Nat → IState →
      List (String × JValue) × Nat × IState
  | _, [], recs, succ, st => (recs, succ, st)
  | k, (code, name) :: rest, recs, succ, st =>
      match env.taskPrompt k with
      | .error m =>
          let record : JValue :=
            .jobj [("phase", .jstr name), ("error", .jstr m),
                   ("status", .jstr "failed"), ("timestamp", .jstr (nowStr st.clock))]
          phaseLoopB env (k + 1) rest (recs ++ [(code, record)]) succ
            { st with clock := st.clock + 1 }
      | .ok promptText =>
          let tr := callModelBase env k 3 st
          let record : JValue :=
            .jobj [("phase", .jstr name), ("prompt", .jstr promptText),
                   ("response", match tr.response with | some r => .jstr r | none => .jnull),
                   ("status", .jstr "success"),
                   ("timestamp", .jstr (nowStr tr.state.clock))]
          phaseLoopB env (k + 1) rest (recs ++ [(code, record)]) (succ + 1)
            { tr.state with clock := tr.state.clock + 1 }

/-- `BaseOrchestrator.process_topic(topic)` with phase list `basePhases`
(`self.phases`, which the base class leaves empty): after the loop it
computes `f"{(successful_phases/len(self.phases)*100):.1f}%"`, so with zero
phases it raises `ZeroDivisionError`. -/
def processTopicBase (env : OrchEnv) (topic : String) (basePhases : List (String × String)) :
    Except PyErr (Option JValue) :=
  match env.userTemplate with
  | .error _ => .ok none
  | .ok _ =>
      let p := phaseLoopB env 0 basePhases [] 0 (initState emptyFS)
      match successRateStr p.2.1 basePhases.length with
      | .error e => .error e
      | .ok rate =>
          .ok (some (.jobj [
            ("metadata", .jobj [
              ("topic", .jstr topic), ("timestamp", .jstr (nowStr 0)),
              ("total_phases", .jnum (basePhases.length : Nat)),
              ("successful_phases", .jnum (p.2.1 : Nat)),
              ("success_rate", .jstr rate)]),
            ("phases", .jobj p.1)]))

/-! ## Infrastructure lemmas for the claims -/

/-- Routing always raises: the handler table cannot be built
(`_handle_git_operations` is undefined), before the request type is even
inspected. -/
lemma routeRequest_raises (world : World) (rt : String) (params : JValue) (st : IState) :
    routeRequest world rt params st =
      .error (.attributeError
        "'SystemIntegrator' object has no attribute '_handle_git_operations'") := rfl

/-- `_log_execution` applied to a batch of `(request_type, parameters,
result)` outcomes, in order. -/
def logMany (st : IState) : List (String × JValue × JValue) → IState
  | [] => st
  | (rt, ps, r) :: rest => logMany (logExecution st rt ps r) rest

lemma logExecution_append (st : IState) (rt : String) (ps r : JValue) :
    (logExecution st rt ps r).execution_log
        = st.execution_log ++ [⟨nowStr st.clock, rt, ps, r⟩] ∧
      (logExecution st rt ps r).auditFile
        = st.auditFile ++ [encodeEntry ⟨nowStr st.clock, rt, ps, r⟩] := ⟨rfl, rfl⟩

lemma logMany_mirror : ∀ (triples : List (String × JValue × JValue)) (st : IState),
    st.auditFile = st.execution_log.map encodeEntry →
    (logMany st triples).auditFile = (logMany st triples).execution_log.map encodeEntry ∧
      (logMany st triples).execution_log.length
        = st.execution_log.length + triples.length := by
  intro triples
  induction triples with
  | nil => intro st h; exact ⟨h, rfl⟩
  | cons t rest ih =>
    intro st h
    obtain ⟨rt, ps, r⟩ := t
    have hstep : (logExecution st rt ps r).auditFile
        = (logExecution st rt ps r).execution_log.map encodeEntry := by
      rw [(logExecution_append st rt ps r).1, (logExecution_append st rt ps r).2, h]
      simp
    obtain ⟨h1, h2⟩ := ih (logExecution st rt ps r) hstep
    simp only [logMany]
    refine ⟨h1, ?_⟩
    rw [h2, (logExecution_append st rt ps r).1]
    simp only [List.length_append, List.length_cons, List.length_nil]
    omega

/-! ## Claims -/

/-- C1: the claim says a policy-rejected request is still logged to the
in-memory log and the audit file.  Counterexample: with `file_system`
disabled, one dispatched `file_system` request returns `success=False` but
both the in-memory log and the audit file stay empty. -/
theorem c1_counterexample :
    (executeAiRequest quietWorld (disableIntegration (initState emptyFS) "file_system")
        "file_system"
        (.jobj [("operation", .jstr "create_file"), ("path", .jstr "a/b.txt"),
                ("content", .jstr "hi")])).map
        (fun p => (jGet p.1 "success", p.2.execution_log.length, p.2.auditFile.length))
      = .ok (.jbool false, 0, 0) := rfl

/-- C1 (amended): a request whose type is disabled in (or absent from) the
policy is rejected immediately with `success=False` and an error message,
no handler runs (the state is untouched apart from the clock), and **no**
Execution Log Entry is appended to the in-memory log or the audit file. -/
theorem c1_rejection_unlogged (world : World) (st : IState) (rt : String) (params : JValue)
    (h : enabledGet st.enabled rt = false) :
    executeAiRequest world st rt params
      = .ok (.jobj [("success", .jbool false),
                    ("error", .jstr ("التكامل " ++ rt ++ " غير مفعل")),
                    ("timestamp", .jstr (nowStr st.clock))],
             { st with clock := st.clock + 1 }) ∧
      ({ st with clock := st.clock + 1 } : IState).execution_log = st.execution_log ∧
      ({ st with clock := st.clock + 1 } : IState).auditFile = st.auditFile ∧
      ({ st with clock := st.clock + 1 } : IState).fs = st.fs := by
  refine ⟨?_, rfl, rfl, rfl⟩
  unfold executeAiRequest
  rw [h]
  simp

/-- C1 witness: the amended theorem applied to a disabled dispatch. -/
theorem c1_rejection_unlogged_witness :
    executeAiRequest quietWorld (disableIntegration (initState emptyFS) "file_system")
        "file_system" (.jobj [])
      = .ok (.jobj [("success", .jbool false),
                    ("error", .jstr "التكامل file_system غير مفعل"),
                    ("timestamp", .jstr "t0")],
             { disableIntegration (initState emptyFS) "file_system" with clock := 1 }) :=
  (c1_rejection_unlogged quietWorld (disableIntegration (initState emptyFS) "file_system")
    "file_system" (.jobj []) rfl).1

/-- C3: the claim says dispatch never propagates an exception.
Counterexample: an ordinary enabled request raises `AttributeError` (the
routing table references the undefined `_handle_git_operations`), which
`except (IOError, ValueError)` does not catch. -/
theorem c3_counterexample :
    executeAiRequest quietWorld (initState emptyFS) "system_commands"
        (.jobj [("command", .jstr "true")])
      = .error (.attributeError
          "'SystemIntegrator' object has no attribute '_handle_git_operations'") := rfl

/-- C3 (amended): for every enabled request type and every parameter
mapping, `execute_ai_request` raises `AttributeError` (propagated to the
caller, nothing logged): building the routing table fails before any
handler is reached, and `AttributeError` is outside the caught
`(IOError, ValueError)`. -/
theorem c3_dispatch_raises (world : World) (st : IState) (rt : String) (params : JValue)
    (h : enabledGet st.enabled rt = true) :
    executeAiRequest world st rt params
      = .error (.attributeError
          "'SystemIntegrator' object has no attribute '_handle_git_operations'") := by
  unfold executeAiRequest
  rw [h]
  simp [routeRequest_raises, PyErr.caughtByExecute]

/-- C3 witness: the amended theorem at an enabled concrete request. -/
theorem c3_dispatch_raises_witness :
    executeAiRequest quietWorld (initState emptyFS) "file_system"
        (.jobj [("operation", .jstr "delete_file"), ("path", .jstr "x.txt")])
      = .error (.attributeError
          "'SystemIntegrator' object has no attribute '_handle_git_operations'") :=
  c3_dispatch_raises quietWorld (initState emptyFS) "file_system"
    (.jobj [("operation", .jstr "delete_file"), ("path", .jstr "x.txt")]) rfl

/-- C7: the claim (and the spec's testable property) says a `modify_file`
request against a missing path fails with a not-found condition and is
logged with `success=False`, leaving the filesystem unchanged.  What the
code actually does at that input: `execute_ai_request` raises
`AttributeError` while building the routing table (so no result dict is
returned and nothing is logged — an error return carries no successor
state, the caller's state is untouched).  The file handler itself, called
directly as the repository's own tests do, behaves exactly as the claim
intends: a wrapped not-found `IOError` and no filesystem change. -/
theorem c7_divergence :
    executeAiRequest quietWorld (initState emptyFS) "file_system"
        (.jobj [("operation", .jstr "modify_file"), ("path", .jstr "missing.txt"),
                ("changes", .jobj [])])
      = .error (.attributeError
          "'SystemIntegrator' object has no attribute '_handle_git_operations'") ∧
    handleFileOperations
        (.jobj [("operation", .jstr "modify_file"), ("path", .jstr "missing.txt"),
                ("changes", .jobj [])])
        (initState emptyFS)
      = .error (.ioError "فشل في تعديل الملف missing.txt: الملف غير موجود: missing.txt") :=
  ⟨rfl, rfl⟩

/-- C7 supporting fact: the direct handler call fails with the not-found
`IOError` for every absent path and every change set, without touching the
filesystem (the error return carries no successor state). -/
theorem c7_handler_not_found (st : IState) (path : String) (changes : JValue)
    (h : pathExists st.fs path = false) :
    handleFileOperations
        (.jobj [("operation", .jstr "modify_file"), ("path", .jstr path),
                ("changes", changes)]) st
      = .error (.ioError ("فشل في تعديل الملف " ++ path ++ ": "
          ++ ("الملف غير موجود: " ++ path))) := by
  have hstep : handleFileOperations
      (.jobj [("operation", .jstr "modify_file"), ("path", .jstr path),
              ("changes", changes)]) st = modifyFile path changes st := rfl
  rw [hstep]
  unfold modifyFile
  simp [h, PyErr.msg]

/-- C7 witness for the supporting fact. -/
theorem c7_handler_not_found_witness :
    handleFileOperations
        (.jobj [("operation", .jstr "modify_file"), ("path", .jstr "nope.md"),
                ("changes", .jobj [("append", .jstr "x")])])
        (initState emptyFS)
      = .error (.ioError ("فشل في تعديل الملف " ++ "nope.md" ++ ": "
          ++ ("الملف غير موجود: " ++ "nope.md"))) :=
  c7_handler_not_found (initState emptyFS) "nope.md" (.jobj [("append", .jstr "x")]) rfl

/-- C10: the claim says dispatching `create_file` with a bare filename
returns `success=False` (and creates no file) because `os.makedirs` on the
empty dirname fails.  Actually dispatch raises `AttributeError` before
reaching the file handler (so no result dict is returned, though indeed no
file is created).  The handler itself, called directly, confirms the
claimed mechanism: bare filename → empty dirname → wrapped `IOError`; a
path with a directory component succeeds and writes the file. -/
theorem c10_divergence :
    executeAiRequest quietWorld (initState emptyFS) "file_system"
        (.jobj [("operation", .jstr "create_file"), ("path", .jstr "file.txt"),
                ("content", .jstr "hi")])
      = .error (.attributeError
          "'SystemIntegrator' object has no attribute '_handle_git_operations'") ∧
    handleFileOperations
        (.jobj [("operation", .jstr "create_file"), ("path", .jstr "file.txt"),
                ("content", .jstr "hi")])
        (initState emptyFS)
      = .error (.ioError
          "فشل في إنشاء الملف file.txt: [Errno 2] No such file or directory: ''") ∧
    (handleFileOperations
        (.jobj [("operation", .jstr "create_file"), ("path", .jstr "a/b.txt"),
                ("content", .jstr "hi")])
        (initState emptyFS)).map
        (fun p => (jGet p.1 "success", fsLookup p.2.fs.files "a/b.txt"))
      = .ok (.jbool true, some "hi") :=
  ⟨rfl, rfl, rfl⟩

/-- C9: the claim says N dispatched requests always yield N parsable audit
records.  Counterexample: one dispatched (policy-rejected) request yields a
normally returned result but zero audit records. -/
theorem c9_counterexample :
    (executeAiRequest quietWorld (disableIntegration (initState emptyFS) "system_commands")
        "system_commands" (.jobj [("command", .jstr "ls")])).map
        (fun p => (p.2.auditFile.length, p.2.execution_log.length))
      = .ok (0, 0) := rfl

/-- C9 (amended): every outcome that reaches `_log_execution` (as each
routed request's result or caught error does) appends exactly one line;
logging N outcomes starting from empty logs yields exactly N audit lines,
in dispatch order, each parsing back (`json.loads`) to precisely the
corresponding in-memory entry.  (Policy-rejected dispatches never reach the
logger, and in the code as written routed dispatches raise before logging —
see C1 and C3.) -/
theorem c9_log_roundtrip (st0 : IState) (triples : List (String × JValue × JValue))
    (h1 : st0.execution_log = []) (h2 : st0.auditFile = []) :
    (logMany st0 triples).execution_log.length = triples.length ∧
    (logMany st0 triples).auditFile.map decodeEntry
      = (logMany st0 triples).execution_log.map some := by
  have hmirror := logMany_mirror triples st0 (by rw [h1, h2]; rfl)
  refine ⟨by rw [hmirror.2, h1]; simp, ?_⟩
  rw [hmirror.1, List.map_map]
  have : decodeEntry ∘ encodeEntry = some := by
    funext e
    exact decodeEntry_encodeEntry e
  rw [this]

/-- C9 witness: two logged outcomes round-trip through the audit file. -/
theorem c9_log_roundtrip_witness :
    (logMany (initState emptyFS)
        [("file_system", .jobj [("operation", .jstr "create_file")],
          .jobj [("success", .jbool true)]),
         ("system_commands", .jobj [("command", .jstr "ls")],
          .jobj [("success", .jbool false), ("error", .jstr "boom")])]).execution_log.length
      = 2 ∧
    (logMany (initState emptyFS)
        [("file_system", .jobj [("operation", .jstr "create_file")],
          .jobj [("success", .jbool true)]),
         ("system_commands", .jobj [("command", .jstr "ls")],
          .jobj [("success", .jbool false), ("error", .jstr "boom")])]).auditFile.map decodeEntry
      = (logMany (initState emptyFS)
        [("file_system", .jobj [("operation", .jstr "create_file")],
          .jobj [("success", .jbool true)]),
         ("system_commands", .jobj [("command", .jstr "ls")],
          .jobj [("success", .jbool false), ("error", .jstr "boom")])]).execution_log.map some :=
  c9_log_roundtrip (initState emptyFS)
    [("file_system", .jobj [("operation", .jstr "create_file")],
      .jobj [("success", .jbool true)]),
     ("system_commands", .jobj [("command", .jstr "ls")],
      .jobj [("success", .jbool false), ("error", .jstr "boom")])] rfl rfl

/-- Retry trace of `call_model_with_integration` when every attempt fails:
3 attempts, sleeps of 2 and 3 seconds, error-string return, state
untouched. -/
lemma callModel_allfail (env : OrchEnv) (phase : Nat) (enInt : Bool) (st : IState)
    (em : Nat → String) (hm : ∀ a, env.modelOutcome phase a = .error (em a)) :
    callModelWithIntegration env phase enInt 3 st
      = { sleeps := [2, 3], attempts := 3,
          response := some ("خطأ: لم يتمكن من الحصول على استجابة من النموذج. " ++ em 2),
          state := st } := by
  have h0 : attemptBody env phase enInt 0 st = (.error (em 0), st) := by
    unfold attemptBody
    rw [hm 0]
  have h1 : attemptBody env phase enInt 1 st = (.error (em 1), st) := by
    unfold attemptBody
    rw [hm 1]
  have h2 : attemptBody env phase enInt 2 st = (.error (em 2), st) := by
    unfold attemptBody
    rw [hm 2]
  unfold callModelWithIntegration
  show callModelAux env phase enInt (2 + 1) 0 st = _
  rw [callModelAux.eq_def]
  simp only [h0]
  show ({ sleeps := (2 ^ 0 + 1) :: (callModelAux env phase enInt (1 + 1) 1 st).sleeps,
          attempts := (callModelAux env phase enInt (1 + 1) 1 st).attempts + 1,
          response := (callModelAux env phase enInt (1 + 1) 1 st).response,
          state := (callModelAux env phase enInt (1 + 1) 1 st).state } : CallTrace) = _
  rw [callModelAux.eq_def]
  simp only [h1]
  show ({ sleeps := (2 ^ 0 + 1) :: (2 ^ 1 + 1) ::
            (callModelAux env phase enInt (0 + 1) 2 st).sleeps,
          attempts := (callModelAux env phase enInt (0 + 1) 2 st).attempts + 1 + 1,
          response := (callModelAux env phase enInt (0 + 1) 2 st).response,
          state := (callModelAux env phase enInt (0 + 1) 2 st).state } : CallTrace) = _
  rw [callModelAux.eq_def]
  simp only [h2]
  simp

/-- C5: with `max_retries = 3` and a model call failing on every attempt,
exactly 3 attempts occur, the thread sleeps 2 seconds after the first
failure (`2^0 + 1`) and 3 seconds after the second (`2^1 + 1`), none after
the third, and the call returns the error string embedding the last
exception's message instead of raising. -/
theorem c5_backoff_trace (env : OrchEnv) (phase : Nat) (enInt : Bool) (st : IState)
    (em : Nat → String) (hm : ∀ a, env.modelOutcome phase a = .error (em a)) :
    callModelWithIntegration env phase enInt 3 st
      = { sleeps := [2, 3], attempts := 3,
          response := some ("خطأ: لم يتمكن من الحصول على استجابة من النموذج. " ++ em 2),
          state := st } :=
  callModel_allfail env phase enInt st em hm

/-- C5 witness: a concrete always-failing environment. -/
theorem c5_backoff_trace_witness :
    callModelWithIntegration
        { world := quietWorld, userTemplate := Except.ok (),
          taskPrompt := fun _ => Except.ok "P",
          modelOutcome := fun _ _ => Except.error "rate limited" }
        0 false 3 (initState emptyFS)
      = { sleeps := [2, 3], attempts := 3,
          response := some ("خطأ: لم يتمكن من الحصول على استجابة من النموذج. "
            ++ "rate limited"),
          state := initState emptyFS } :=
  c5_backoff_trace
    { world := quietWorld, userTemplate := Except.ok (),
      taskPrompt := fun _ => Except.ok "P",
      modelOutcome := fun _ _ => Except.error "rate limited" }
    0 false (initState emptyFS) (fun _ => "rate limited") (fun _ => rfl)

/-- The payload collected from block body lines: each line plus `'\n'`. -/
def joinNl : List String → String
  | [] => ""
  | l :: ls => l ++ "\n" ++ joinNl ls

/-- Collecting a block body: lines without a fence accumulate into the
payload. -/
lemma scanCollect (σ : Type) (exec : σ → JValue → ExecO × σ) :
    ∀ (body : List String) (acc : String) (rest' : List String) (s : σ),
    (∀ l ∈ body, strContains l "```" = false) →
    scanLines σ exec (body ++ rest') (some acc) s
      = scanLines σ exec rest' (some (acc ++ joinNl body)) s := by
  intro body
  induction body with
  | nil => intro acc rest' s _; simp [joinNl]
  | cons l body ih =>
    intro acc rest' s h
    have hl : strContains l "```" = false := h l (by simp)
    rw [List.cons_append, scanLines]
    simp only [hl, Bool.false_eq_true, if_false, reduceIte]
    rw [ih (acc ++ l ++ "\n") rest' s (fun x hx => h x (by simp [hx]))]
    have : acc ++ l ++ "\n" ++ joinNl body = acc ++ joinNl (l :: body) := by
      simp [joinNl, String.append_assoc]
    rw [this]

/-- Lines before the first `json`-tagged fence pass through verbatim. -/
lemma scanPre (σ : Type) (exec : σ → JValue → ExecO × σ) :
    ∀ (pre rest : List String) (s : σ),
    (∀ l ∈ pre, strContains l "```json" = false) →
    scanLines σ exec (pre ++ rest) none s
      = (pre ++ (scanLines σ exec rest none s).1,
         (scanLines σ exec rest none s).2.1, (scanLines σ exec rest none s).2.2) := by
  intro pre
  induction pre with
  | nil => intro rest s _; simp
  | cons l pre ih =>
    intro rest s h
    have hl : strContains l "```json" = false := h l (by simp)
    rw [List.cons_append, scanLines]
    simp only [hl, Bool.false_and, Bool.false_eq_true, if_false, reduceIte]
    rw [ih rest s (fun x hx => h x (by simp [hx]))]
    simp

/-- C4: the claim says a fenced block whose payload is valid JSON without
the `integration_request` key comes back byte-for-byte, internal blank
lines included.  Counterexample: the scanner strips the payload's leading
and trailing blank lines when re-emitting, so the result differs from the
input. -/
theorem c4_counterexample :
    (processIntegrationRequests Unit (fun u _ => (.raised "unused", u))
        "pre\n```json\n\n\x7b\"a\": \"1\"\x7d\n\n```\npost" ()).1
      = .ok "pre\n```json\n\x7b\"a\": \"1\"\x7d\n```\npost" ∧
    ("pre\n```json\n\x7b\"a\": \"1\"\x7d\n```\npost" : String)
      ≠ "pre\n```json\n\n\x7b\"a\": \"1\"\x7d\n\n```\npost" := ⟨rfl, by decide⟩

/-- C4 (amended): a block whose payload parses as structured data without
the `integration_request` key is re-emitted, not dispatched — but in
normalized form: the opening fence line is replaced by exactly
` ```json `, the payload is re-emitted as one chunk with leading/trailing
whitespace stripped, and the closing fence line is replaced by ` ``` `.
The surrounding lines are untouched and scanning continues after the
block; byte-for-byte equality holds only when the fences were already bare
and the payload had no leading/trailing whitespace. -/
theorem c4_reemit_normalized (σ : Type) (exec : σ → JValue → ExecO × σ) (s : σ)
    (fence : String) (body : List String) (close : String) (post : List String) (v : JValue)
    (hf : strContains fence "```json" = true)
    (hb : ∀ l ∈ body, strContains l "```" = false)
    (hc : strContains close "```" = true)
    (hv : jloads (pyStrip (joinNl body)) = some v)
    (hk : pyContains v "integration_request" = .ok false) :
    scanLines σ exec (fence :: (body ++ close :: post)) none s
      = ("```json" :: pyStrip (joinNl body) :: "```" ::
           (scanLines σ exec post none s).1,
         (scanLines σ exec post none s).2.1,
         (scanLines σ exec post none s).2.2) := by
  rw [scanLines]
  have hne : (body ++ close :: post).isEmpty = false := by
    cases body <;> simp
  simp only [hf, hne, Bool.not_false, Bool.and_true, if_true, reduceIte]
  rw [scanCollect σ exec body "" (close :: post) s hb]
  rw [scanLines]
  simp only [hc, if_true, reduceIte]
  have hacc : ("" ++ joinNl body) = joinNl body := by simp
  rw [hacc]
  unfold processPayload
  rw [hv]
  simp only [hk]
  simp

/-- C4 witness for the amended theorem: a concrete re-emitted block. -/
theorem c4_reemit_normalized_witness :
    scanLines Unit (fun u _ => (.raised "unused", u))
        ("  ```json extra" :: (["", "\x7b\"k\": [1, 2]\x7d", ""] ++ " ``` " :: ["tail"]))
        none ()
      = ("```json" :: pyStrip (joinNl ["", "\x7b\"k\": [1, 2]\x7d", ""]) :: "```" ::
           (scanLines Unit (fun u _ => (.raised "unused", u)) ["tail"] none ()).1,
         (scanLines Unit (fun u _ => (.raised "unused", u)) ["tail"] none ()).2.1,
         (scanLines Unit (fun u _ => (.raised "unused", u)) ["tail"] none ()).2.2) :=
  c4_reemit_normalized Unit (fun u _ => (.raised "unused", u)) ()
    "  ```json extra" ["", "\x7b\"k\": [1, 2]\x7d", ""] " ``` " ["tail"]
    (.jobj [("k", .jarr [.jnum 1, .jnum 2])])
    rfl (by decide) rfl rfl rfl

/-- C6: a `json`-tagged fence that is opened (it has at least one following
line — a fence on the final line opens nothing) with no closing fence on
any later line consumes the entire remainder as the candidate payload and
feeds it to the same parse/dispatch logic (`processPayload`, the very
function used for closed blocks: dispatch when it parses with the
`integration_request` key, re-emission otherwise). -/
theorem c6_unterminated_block (σ : Type) (exec : σ → JValue → ExecO × σ) (s : σ)
    (pre : List String) (fence : String) (tail : List String)
    (hpre : ∀ l ∈ pre, strContains l "```json" = false)
    (hf : strContains fence "```json" = true)
    (ht : tail ≠ [])
    (hnc : ∀ l ∈ tail, strContains l "```" = false) :
    scanLines σ exec (pre ++ fence :: tail) none s
      = (pre ++ (processPayload σ exec (pyStrip (joinNl tail)) s).1,
         (processPayload σ exec (pyStrip (joinNl tail)) s).2.1.toList,
         (processPayload σ exec (pyStrip (joinNl tail)) s).2.2) := by
  rw [scanPre σ exec pre (fence :: tail) s hpre]
  have hne : tail.isEmpty = false := by
    cases tail with
    | nil => exact absurd rfl ht
    | cons a b => simp
  rw [scanLines]
  simp only [hf, hne, Bool.not_false, Bool.and_true, if_true, reduceIte]
  have : tail = tail ++ [] := by simp
  rw [this, scanCollect σ exec tail "" [] s (by simpa using hnc)]
  rw [scanLines]
  simp

/-- C6 witness: an unterminated block holding a dispatchable request; the
seam is invoked on it and its error line replaces the block. -/
theorem c6_unterminated_block_witness :
    scanLines Unit (fun u r => (.res (.jobj [("success", .jbool true),
        ("message", .jstr (pyStrOf (jGet r "type")))]), u))
        (["intro"] ++ "```json" ::
          ["\x7b\"integration_request\": \x7b\"type\": \"file_system\",",
           " \"parameters\": \x7b\x7d\x7d\x7d"])
        none ()
      = (["intro"] ++ (processPayload Unit (fun u r => (.res (.jobj [("success", .jbool true),
            ("message", .jstr (pyStrOf (jGet r "type")))]), u))
            (pyStrip (joinNl ["\x7b\"integration_request\": \x7b\"type\": \"file_system\",",
              " \"parameters\": \x7b\x7d\x7d\x7d"])) ()).1,
         (processPayload Unit (fun u r => (.res (.jobj [("success", .jbool true),
            ("message", .jstr (pyStrOf (jGet r "type")))]), u))
            (pyStrip (joinNl ["\x7b\"integration_request\": \x7b\"type\": \"file_system\",",
              " \"parameters\": \x7b\x7d\x7d\x7d"])) ()).2.1.toList,
         (processPayload Unit (fun u r => (.res (.jobj [("success", .jbool true),
            ("message", .jstr (pyStrOf (jGet r "type")))]), u))
            (pyStrip (joinNl ["\x7b\"integration_request\": \x7b\"type\": \"file_system\",",
              " \"parameters\": \x7b\x7d\x7d\x7d"])) ()).2.2) :=
  c6_unterminated_block Unit _ () ["intro"] "```json"
    ["\x7b\"integration_request\": \x7b\"type\": \"file_system\",",
     " \"parameters\": \x7b\x7d\x7d\x7d"]
    (by decide) rfl (by decide) (by decide)

/-- The success-rate computation as the spec defines it ("for 0 total
phases handling must not divide by zero (defined as `\"0.0%\"`)") — the
refinement target for C8, to compare with the code's `successRateStr`. -/
def specSuccessRate (s t : Nat) : String :=
  if t = 0 then "0.0%" else fmtPercent (rate1dp s t)

/-- C8: for a completed run the formatted rate matches the claim's formula
(third conjunct shows a sample agreement), but with 0 total phases the code
divides by zero: `BaseOrchestrator` leaves `self.phases = []`, and
`process_topic` then raises `ZeroDivisionError` computing
`successful_phases/len(self.phases)*100` instead of producing the spec's
`"0.0%"`. -/
theorem c8_divergence :
    processTopicBase
        { world := quietWorld, userTemplate := Except.ok (),
          taskPrompt := fun _ => Except.ok "P",
          modelOutcome := fun _ _ => Except.ok "R" } "T" []
      = .error .zeroDivisionError ∧
    specSuccessRate 0 0 = "0.0%" ∧
    successRateStr 5 7 = .ok (specSuccessRate 5 7) := ⟨rfl, rfl, rfl⟩

/-- C2: the claim says a phase whose model call fails on every retry gets
`status=failed` with an error field.  Counterexample: with the model
unreachable on every attempt, every phase is recorded `status=success`,
its `response` is the Model Caller's error string, and the run reports
`successful_phases = 7` with a 100% success rate. -/
theorem c2_counterexample :
    (processTopicEnhanced
        { world := quietWorld, userTemplate := Except.ok (),
          taskPrompt := fun _ => Except.ok "P",
          modelOutcome := fun _ _ => Except.error "model unreachable" } "T" false emptyFS).map
      (Option.map (fun out =>
        (jGet (jGet (jGet out "phases") "Phase 0") "status",
         jGet (jGet (jGet out "phases") "Phase 0") "response",
         jGet (jGet out "metadata") "successful_phases",
         jGet (jGet out "metadata") "success_rate")))
    = .ok (some (.jstr "success",
         .jstr "خطأ: لم يتمكن من الحصول على استجابة من النموذج. model unreachable",
         .jnum 7, .jstr "100.0%")) := rfl

/-- C2 (amended): when the model call fails on every retry attempt the
Model Caller returns an error string instead of raising, so the phase is
recorded with `status="success"` and the error string as its `response`
(no `error` field), the phase counts as successful, and the run continues
through all 7 phases; `status="failed"` with an `error` field is produced
only when the phase body itself raises (e.g. the task template fails to
render). -/
theorem c2_model_failure_not_failed (env : OrchEnv) (topic : String) (enInt : Bool)
    (fs0 : FS) (pt : Nat → String) (em : Nat → Nat → String)
    (hu : env.userTemplate = .ok ())
    (ht : ∀ k, env.taskPrompt k = .ok (pt k))
    (hm : ∀ k a, env.modelOutcome k a = .error (em k a)) :
    processTopicEnhanced env topic enInt fs0
      = .ok (some (.jobj [
          ("metadata", .jobj [
            ("topic", .jstr topic), ("timestamp", .jstr (nowStr 0)),
            ("total_phases", .jnum 7), ("integration_enabled", .jbool enInt),
            ("successful_phases", .jnum 7), ("success_rate", .jstr "100.0%")]),
          ("phases", .jobj [
            ("Phase 0", .jobj [("phase", .jstr "Ideation"), ("prompt", .jstr (pt 0)),
              ("response", .jstr ("خطأ: لم يتمكن من الحصول على استجابة من النموذج. "
                ++ em 0 2)),
              ("status", .jstr "success"), ("integration_enabled", .jbool enInt),
              ("timestamp", .jstr (nowStr 1))]),
            ("Phase 1", .jobj [("phase", .jstr "Research"), ("prompt", .jstr (pt 1)),
              ("response", .jstr ("خطأ: لم يتمكن من الحصول على استجابة من النموذج. "
                ++ em 1 2)),
              ("status", .jstr "success"), ("integration_enabled", .jbool enInt),
              ("timestamp", .jstr (nowStr 2))]),
            ("Phase 2", .jobj [("phase", .jstr "Design"), ("prompt", .jstr (pt 2)),
              ("response", .jstr ("خطأ: لم يتمكن من الحصول على استجابة من النموذج. "
                ++ em 2 2)),
              ("status", .jstr "success"), ("integration_enabled", .jbool enInt),
              ("timestamp", .jstr (nowStr 3))]),
            ("Phase 3", .jobj [("phase", .jstr "Development Plan"), ("prompt", .jstr (pt 3)),
              ("response", .jstr ("خطأ: لم يتمكن من الحصول على استجابة من النموذج. "
                ++ em 3 2)),
              ("status", .jstr "success"), ("integration_enabled", .jbool enInt),
              ("timestamp", .jstr (nowStr 4))]),
            ("Phase 4", .jobj [("phase", .jstr "Execution"), ("prompt", .jstr (pt 4)),
              ("response", .jstr ("خطأ: لم يتمكن من الحصول على استجابة من النموذج. "
                ++ em 4 2)),
              ("status", .jstr "success"), ("integration_enabled", .jbool enInt),
              ("timestamp", .jstr (nowStr 5))]),
            ("Phase 5", .jobj [("phase", .jstr "Review & Optimize"), ("prompt", .jstr (pt 5)),
              ("response", .jstr ("خطأ: لم يتمكن من الحصول على استجابة من النموذج. "
                ++ em 5 2)),
              ("status", .jstr "success"), ("integration_enabled", .jbool enInt),
              ("timestamp", .jstr (nowStr 6))]),
            ("Phase 6", .jobj [("phase", .jstr "Deploy & Integrate"), ("prompt", .jstr (pt 6)),
              ("response", .jstr ("خطأ: لم يتمكن من الحصول على استجابة من النموذج. "
                ++ em 6 2)),
              ("status", .jstr "success"), ("integration_enabled", .jbool enInt),
              ("timestamp", .jstr (nowStr 7))])]),
          ("integration_log", .jarr [])])) := by
  have hcall : ∀ (k : Nat) (b : Bool) (st : IState),
      callModelWithIntegration env k b 3 st
        = { sleeps := [2, 3], attempts := 3,
            response := some ("خطأ: لم يتمكن من الحصول على استجابة من النموذج. " ++ em k 2),
            state := st } :=
    fun k b st => callModel_allfail env k b st (em k) (hm k)
  unfold processTopicEnhanced
  rw [hu]
  simp only [phasesE, phaseLoopE, ht 0, ht 1, ht 2, ht 3, ht 4, ht 5, ht 6, hcall,
    initState, loadEnabledIntegrations]
  simp [successRateStr, Bool.and_true]
  decide

/-- C2 witness: the amended theorem on a concrete always-failing model. -/
theorem c2_model_failure_not_failed_witness :
    processTopicEnhanced
        { world := quietWorld, userTemplate := Except.ok (),
          taskPrompt := fun _ => Except.ok "P",
          modelOutcome := fun _ _ => Except.error "down" } "T" true emptyFS
      = .ok (some (.jobj [
          ("metadata", .jobj [
            ("topic", .jstr "T"), ("timestamp", .jstr (nowStr 0)),
            ("total_phases", .jnum 7), ("integration_enabled", .jbool true),
            ("successful_phases", .jnum 7), ("success_rate", .jstr "100.0%")]),
          ("phases", .jobj [
            ("Phase 0", .jobj [("phase", .jstr "Ideation"), ("prompt", .jstr "P"),
              ("response", .jstr ("خطأ: لم يتمكن من الحصول على استجابة من النموذج. "
                ++ "down")),
              ("status", .jstr "success"), ("integration_enabled", .jbool true),
              ("timestamp", .jstr (nowStr 1))]),
            ("Phase 1", .jobj [("phase", .jstr "Research"), ("prompt", .jstr "P"),
              ("response", .jstr ("خطأ: لم يتمكن من الحصول على استجابة من النموذج. "
                ++ "down")),
              ("status", .jstr "success"), ("integration_enabled", .jbool true),
              ("timestamp", .jstr (nowStr 2))]),
            ("Phase 2", .jobj [("phase", .jstr "Design"), ("prompt", .jstr "P"),
              ("response", .jstr ("خطأ: لم يتمكن من الحصول على استجابة من النموذج. "
                ++ "down")),
              ("status", .jstr "success"), ("integration_enabled", .jbool true),
              ("timestamp", .jstr (nowStr 3))]),
            ("Phase 3", .jobj [("phase", .jstr "Development Plan"), ("prompt", .jstr "P"),
              ("response", .jstr ("خطأ: لم يتمكن من الحصول على استجابة من النموذج. "
                ++ "down")),
              ("status", .jstr "success"), ("integration_enabled", .jbool true),
              ("timestamp", .jstr (nowStr 4))]),
            ("Phase 4", .jobj [("phase", .jstr "Execution"), ("prompt", .jstr "P"),
              ("response", .jstr ("خطأ: لم يتمكن من الحصول على استجابة من النموذج. "
                ++ "down")),
              ("status", .jstr "success"), ("integration_enabled", .jbool true),
              ("timestamp", .jstr (nowStr 5))]),
            ("Phase 5", .jobj [("phase", .jstr "Review & Optimize"), ("prompt", .jstr "P"),
              ("response", .jstr ("خطأ: لم يتمكن من الحصول على استجابة من النموذج. "
                ++ "down")),
              ("status", .jstr "success"), ("integration_enabled", .jbool true),
              ("timestamp", .jstr (nowStr 6))]),
            ("Phase 6", .jobj [("phase", .jstr "Deploy & Integrate"), ("prompt", .jstr "P"),
              ("response", .jstr ("خطأ: لم يتمكن من الحصول على استجابة من النموذج. "
                ++ "down")),
              ("status", .jstr "success"), ("integration_enabled", .jbool true),
              ("timestamp", .jstr (nowStr 7))])]),
          ("integration_log", .jarr [])])) :=
  c2_model_failure_not_failed
    { world := quietWorld, userTemplate := Except.ok (),
      taskPrompt := fun _ => Except.ok "P",
      modelOutcome := fun _ _ => Except.error "down" }
    "T" true emptyFS (fun _ => "P") (fun _ _ => "down") rfl (fun _ => rfl) (fun _ _ => rfl)
